import Mathlib

/-! Taskbar Background Helper: a verification development.

A shallow embedding of `mods/taskbar-background-helper.wh.cpp`.

* Handles (`HWND`, `HMONITOR`, `HANDLE`) are natural numbers, `0` is the null handle.
* Every query the module makes of the operating system is a field of `Env`: one
  `Env` value is one snapshot of the system, as the code would observe it.
* The globals of the module, the listener thread, its timers and the calls made to the
  original `SetWindowCompositionAttribute` are the fields of `World`; every
  function of the module is a function `Env → World → ... → World × result`.
* Machine integers are `Nat`/`Int` with the truncations of the source written out.
-/

namespace TaskbarBackgroundHelper

/-! ## Data model -/

abbrev HWND := Nat
abbrev HMONITOR := Nat
abbrev HANDLE := Nat
abbrev DWORD := Nat
abbrev UINT := Nat
abbrev UINT_PTR := Nat
abbrev COLORREF := Nat
/-- Wide strings: the list of their `WCHAR` code units. -/
abbrev WString := List Nat

/-- The wide string of a literal. -/
def L (s : String) : WString := s.toList.map Char.toNat

inductive BackgroundStyle where
  | blur
  | acrylicBlur
  | color
  deriving DecidableEq, Repr

structure TaskbarStyle where
  backgroundStyle : BackgroundStyle
  color : COLORREF
  accentColor : Bool
  deriving DecidableEq, Repr

/-- The anonymous struct behind `g_settings`. -/
structure Settings where
  style : TaskbarStyle
  onlyWhenMaximized : Bool
  darkModeStyle : Option TaskbarStyle
  deriving DecidableEq, Repr

def EVENT_OBJECT_CLOAKED : Nat := 0x8017
def EVENT_OBJECT_UNCLOAKED : Nat := 0x8018

/-- The one value of `WINDOWCOMPOSITIONATTRIB` the module looks at. -/
def WCA_ACCENT_POLICY : Nat := 19

inductive ACCENT_STATE where
  | ACCENT_DISABLED
  | ACCENT_ENABLE_GRADIENT
  | ACCENT_ENABLE_TRANSPARENTGRADIENT
  | ACCENT_ENABLE_BLURBEHIND
  | ACCENT_ENABLE_ACRYLICBLURBEHIND
  | ACCENT_ENABLE_HOSTBACKDROP
  | ACCENT_INVALID_STATE
  deriving DecidableEq, Repr

open ACCENT_STATE

/-- The enumerator values of `ACCENT_STATE`. -/
def ACCENT_STATE.toNat : ACCENT_STATE → Nat
  | ACCENT_DISABLED => 0
  | ACCENT_ENABLE_GRADIENT => 1
  | ACCENT_ENABLE_TRANSPARENTGRADIENT => 2
  | ACCENT_ENABLE_BLURBEHIND => 3
  | ACCENT_ENABLE_ACRYLICBLURBEHIND => 4
  | ACCENT_ENABLE_HOSTBACKDROP => 5
  | ACCENT_INVALID_STATE => 6

structure ACCENTPOLICY where
  accentState : ACCENT_STATE
  accentFlags : UINT
  gradientColor : COLORREF
  animationId : Int
  deriving DecidableEq, Repr

/-- What `pvData` points to: an accent policy, or bytes of some other layout. -/
inductive PvData where
  | policy (p : ACCENTPOLICY)
  | raw (bytes : List Nat)
  deriving DecidableEq, Repr

structure WINDOWCOMPOSITIONATTRIBDATA where
  attrib : Nat
  pvData : PvData
  cbData : UINT
  deriving DecidableEq, Repr

/-- The four bytes of a 32-bit little-endian word. -/
def le32 (n : Nat) : List Nat :=
  [n % 256, n / 256 % 256, n / 65536 % 256, n / 16777216 % 256]

/-- The 16 bytes of an `ACCENTPOLICY` (four 32-bit fields, no padding). -/
def ACCENTPOLICY.bytes (p : ACCENTPOLICY) : List Nat :=
  le32 p.accentState.toNat ++ le32 p.accentFlags ++ le32 p.gradientColor ++
    le32 (p.animationId % 4294967296).toNat

/-- The size `sizeof(ACCENTPOLICY)`. -/
def sizeof_ACCENTPOLICY : UINT := 16

structure RECT where
  left : Int
  top : Int
  right : Int
  bottom : Int
  deriving DecidableEq, Repr

/-- A zero-initialised `RECT` (`RECT windowRect{}`, the rest of `MONITORINFO`). -/
def RECT.zero : RECT := ⟨0, 0, 0, 0⟩

def EqualRect (a b : RECT) : Bool :=
  a.left == b.left && a.top == b.top && a.right == b.right && a.bottom == b.bottom

/-- A `winrt::Windows::UI::Color`. -/
structure Color where
  A : Nat
  R : Nat
  G : Nat
  B : Nat
  deriving DecidableEq, Repr

/-- The `winrt::hresult_error` the accent-color lookup can throw. -/
structure hresult_error where
  code : Nat
  deriving DecidableEq, Repr

/-- One snapshot of the operating system, as the queries of the module observe it. -/
structure Env where
  /-- `RegGetValue` of `AppsUseLightTheme`: `none` when the result is not `ERROR_SUCCESS`. -/
  RegGetValue_AppsUseLightTheme : Option DWORD
  /-- `UISettings().GetColorValue(UIColorType::Accent)`: the color, or the error thrown. -/
  GetColorValue_Accent : Except hresult_error Color
  /-- The windows `EnumWindows` passes to its callback, in order. -/
  topLevelWindows : List HWND
  /-- The windows `EnumThreadWindows` passes to its callback for a thread id. -/
  threadWindows : DWORD → List HWND
  /-- The return value of `GetWindowThreadProcessId`: the thread id, `0` on failure. -/
  windowThreadId : HWND → DWORD
  /-- The process id `GetWindowThreadProcessId` stores when it succeeds. -/
  windowProcessId : HWND → DWORD
  GetCurrentProcessId : DWORD
  /-- The class name of a window, `none` when `GetClassName` fails. -/
  className : HWND → Option WString
  MonitorFromWindow : HWND → HMONITOR
  /-- The `rcMonitor` that `GetMonitorInfo` stores, `none` when it fails. -/
  GetMonitorInfo : HMONITOR → Option RECT
  GetShellWindow : HWND
  GetDesktopWindow : HWND
  IsWindowVisible : HWND → Bool
  IsIconic : HWND → Bool
  /-- `DwmGetWindowAttribute(DWMWA_CLOAKED)`: the value stored, `none` on failure. -/
  DwmCloaked : HWND → Option Nat
  /-- `DwmGetWindowAttribute(DWMWA_EXTENDED_FRAME_BOUNDS)`: `none` on failure. -/
  DwmExtendedFrameBounds : HWND → Option RECT
  GetWindowLong_EXSTYLE : HWND → Nat
  GetWindowLong_STYLE : HWND → Nat
  /-- `GetProp(hWnd, L"DesktopWindow")`, `0` when the property is absent. -/
  GetProp_DesktopWindow : HWND → HANDLE
  /-- The `showCmd` that `GetWindowPlacement` stores, `none` when it fails. -/
  GetWindowPlacement : HWND → Option UINT
  /-- `GetAncestor(hWnd, GA_PARENT)`. -/
  GetAncestor_PARENT : HWND → HWND
  /-- The return value of the original `SetWindowCompositionAttribute`. -/
  SetWindowCompositionAttribute_Result : HWND → WINDOWCOMPOSITIONATTRIBDATA → Bool
  /-- The handle `CreateThread` returns, `0` when it fails. -/
  CreateThread : HANDLE
  /-- The timer id `SetTimer` returns, `0` when it fails. -/
  SetTimer : UINT_PTR
  /-- `GetClassInfo(GetModuleHandle(nullptr), L"Shell_TrayWnd", ..)`. -/
  GetClassInfo_Shell_TrayWnd : Bool
  LoadLibrary_user32 : Bool
  GetProcAddress_SetWindowCompositionAttribute : Bool
  /-- The settings store of the host: `Wh_GetIntSetting` by setting name. -/
  Wh_GetIntSetting : String → Int
  /-- The settings store of the host: `Wh_GetStringSetting` by setting name. -/
  Wh_GetStringSetting : String → WString
  /-- The value read from the field `accentColor` of the local `TaskbarStyle style;`
  of `LoadSettings`, which is declared without an initialiser and never assigned. -/
  uninitialized_accentColor : Bool

/-- The globals of the module and the parts of the process they act on. -/
structure World where
  g_settings : Settings
  /-- `g_winEventHookThread`, `0` is the null handle. -/
  g_winEventHookThread : HANDLE
  /-- `g_pendingMonitors`: a set, kept as a list without repetitions. -/
  g_pendingMonitors : List HMONITOR
  g_pendingMonitorsTimer : UINT_PTR
  /-- The listener threads that were created and have not exited. -/
  liveThreads : List HANDLE
  /-- The timers of the listener thread that are set and not killed. -/
  timers : List UINT_PTR
  /-- The calls made to `SetWindowCompositionAttribute_Original`, oldest first. -/
  calls : List (HWND × WINDOWCOMPOSITIONATTRIBDATA)
  /-- Whether `Wh_SetFunctionHookT` was called for the entry point. -/
  hooked : Bool
  deriving DecidableEq, Repr

/-- `unordered_set::insert`. -/
def setInsert (s : List Nat) (x : Nat) : List Nat :=
  if x ∈ s then s else s ++ [x]

/-! ## Style resolver -/

def IsWindowsDarkModeEnabled (env : Env) : Bool :=
  match env.RegGetValue_AppsUseLightTheme with
  | none => false
  | some value => value == 0

def IsWindowCloaked (env : Env) (hwnd : HWND) : Bool :=
  match env.DwmCloaked hwnd with
  | none => false
  | some isCloaked => isCloaked != 0

/-- The call `SetWindowCompositionAttribute_Original(hWnd, &data)`. -/
def SetWindowCompositionAttribute_Original (env : Env) (w : World) (hWnd : HWND)
    (data : WINDOWCOMPOSITIONATTRIBDATA) : World × Bool :=
  ({ w with calls := w.calls ++ [(hWnd, data)] },
    env.SetWindowCompositionAttribute_Result hWnd data)

/-- The initialiser of `TaskbarStyle& style` in `SetTaskbarStyle`. -/
def SetTaskbarStyle_style (env : Env) (settings : Settings) : TaskbarStyle :=
  match settings.darkModeStyle with
  | some darkModeStyle =>
    if IsWindowsDarkModeEnabled env then darkModeStyle else settings.style
  | none => settings.style

/-- The `ACCENTPOLICY policy` that `SetTaskbarStyle` builds. -/
def SetTaskbarStyle_policy (env : Env) (settings : Settings) : ACCENTPOLICY :=
  let style := SetTaskbarStyle_style env settings
  let (accentState, accentFlags) : ACCENT_STATE × UINT :=
    match style.backgroundStyle with
    | BackgroundStyle.blur => (ACCENT_ENABLE_BLURBEHIND, 0)
    | BackgroundStyle.acrylicBlur => (ACCENT_ENABLE_ACRYLICBLURBEHIND, 0)
    | BackgroundStyle.color => (ACCENT_ENABLE_TRANSPARENTGRADIENT, 0x13)
  let color : COLORREF := style.color
  let color : COLORREF :=
    if style.accentColor then
      match env.GetColorValue_Accent with
      | Except.ok accentColor =>
        (accentColor.R % 256) ||| ((accentColor.G % 256) <<< 8) |||
          ((accentColor.B % 256) <<< 16) ||| (color &&& 0xFF000000)
      | Except.error _ => color
    else color
  ⟨accentState, accentFlags, color, 0⟩

def SetTaskbarStyle (env : Env) (w : World) (hWnd : HWND) : World × Bool :=
  let policy : ACCENTPOLICY := SetTaskbarStyle_policy env w.g_settings
  let data : WINDOWCOMPOSITIONATTRIBDATA :=
    ⟨WCA_ACCENT_POLICY, PvData.policy policy, sizeof_ACCENTPOLICY⟩
  SetWindowCompositionAttribute_Original env w hWnd data

def ResetTaskbarStyle (env : Env) (w : World) (hWnd : HWND) : World × Bool :=
  let policy : ACCENTPOLICY := ⟨ACCENT_ENABLE_TRANSPARENTGRADIENT, 0x13, 0, 0⟩
  let data : WINDOWCOMPOSITIONATTRIBDATA :=
    ⟨WCA_ACCENT_POLICY, PvData.policy policy, sizeof_ACCENTPOLICY⟩
  SetWindowCompositionAttribute_Original env w hWnd data

/-! ## Surface locator -/

/-- The lower-case form of a `WCHAR` in the C locale. -/
def towlower (c : Nat) : Nat :=
  if 65 ≤ c ∧ c ≤ 90 then c + 32 else c

/-- The C function `_wcsicmp`: `0` exactly when the strings agree up to case. -/
def wcsicmp : WString → WString → Int
  | [], [] => 0
  | [], _ :: _ => -1
  | _ :: _, [] => 1
  | a :: as, b :: bs =>
    if towlower a = towlower b then wcsicmp as bs
    else if towlower a < towlower b then -1 else 1

/-- The C function `wcscmp`. -/
def wcscmp : WString → WString → Int
  | [], [] => 0
  | [], _ :: _ => -1
  | _ :: _, [] => 1
  | a :: as, b :: bs =>
    if a = b then wcscmp as bs else if a < b then -1 else 1

/-- `GetClassName(hWnd, buffer, nMaxCount)`: the number of characters copied
(`0` on failure) and the buffer, which holds at most `nMaxCount - 1` characters. -/
def GetClassName (env : Env) (hWnd : HWND) (nMaxCount : Nat) : Nat × WString :=
  match env.className hWnd with
  | none => (0, [])
  | some name => ((name.take (nMaxCount - 1)).length, name.take (nMaxCount - 1))

/-- `EnumWindows`/`EnumThreadWindows` over the given windows: the callback gets
each window in turn with the state behind `lParam`, and returning `false` stops
the enumeration. -/
def EnumWindowsOver {σ : Type} (proc : HWND → σ → σ × Bool) : List HWND → σ → σ
  | [], s => s
  | hWnd :: rest, s =>
    if (proc hWnd s).2 then EnumWindowsOver proc rest (proc hWnd s).1 else (proc hWnd s).1

def FindCurrentProcessTaskbarWnd (env : Env) : HWND :=
  EnumWindowsOver
    (fun hWnd hTaskbarWnd =>
      if env.windowThreadId hWnd != 0 &&
          env.windowProcessId hWnd == env.GetCurrentProcessId &&
          (GetClassName env hWnd 32).1 != 0 &&
          wcsicmp (GetClassName env hWnd 32).2 (L "Shell_TrayWnd") == 0 then
        (hWnd, false)
      else
        (hTaskbarWnd, true))
    env.topLevelWindows 0

def IsTaskbarWindow (env : Env) (hWnd : HWND) : Bool :=
  if (GetClassName env hWnd 32).1 == 0 then false
  else
    wcsicmp (GetClassName env hWnd 32).2 (L "Shell_TrayWnd") == 0 ||
      wcsicmp (GetClassName env hWnd 32).2 (L "Shell_SecondaryTrayWnd") == 0

/-- Returns the primary taskbar window and the set `secondaryTaskbarWindows`. -/
def FindTaskbarWindows (env : Env) : HWND × List HWND :=
  let hTaskbarWnd := FindCurrentProcessTaskbarWnd env
  if hTaskbarWnd == 0 then (0, [])
  else
    let taskbarThreadId := env.windowThreadId hTaskbarWnd
    if taskbarThreadId == 0 then (0, [])
    else
      let secondaryTaskbarWindows :=
        EnumWindowsOver
          (fun hWnd (secondaryTaskbarWindows : List HWND) =>
            if (GetClassName env hWnd 32).1 == 0 then (secondaryTaskbarWindows, true)
            else if wcsicmp (GetClassName env hWnd 32).2 (L "Shell_SecondaryTrayWnd") == 0 then
              (setInsert secondaryTaskbarWindows hWnd, true)
            else (secondaryTaskbarWindows, true))
          (env.threadWindows taskbarThreadId) []
      (hTaskbarWnd, secondaryTaskbarWindows)

/-! ## Occupancy detector -/

def WS_EX_NOACTIVATE : Nat := 0x08000000
def WS_CHILD : Nat := 0x40000000
def SW_SHOWMAXIMIZED : Nat := 3
def OBJID_WINDOW : Int := 0

/-- The callback `enumWindowsProc` of `DoesMonitorHaveMaximizedWindow`; the state
is the captured `hasMaximizedWindow`. -/
def DoesMonitorHaveMaximizedWindow_enumWindowsProc (env : Env) (monitor : HMONITOR)
    (rcMonitor : RECT) (hShellWindow : HWND) (dwTaskbarThreadId : DWORD)
    (hWnd : HWND) (hasMaximizedWindow : Bool) : Bool × Bool :=
  if env.windowThreadId hWnd == dwTaskbarThreadId then (hasMaximizedWindow, true)
  else if env.MonitorFromWindow hWnd != monitor then (hasMaximizedWindow, true)
  else if !env.IsWindowVisible hWnd || IsWindowCloaked env hWnd || env.IsIconic hWnd ||
      (env.GetWindowLong_EXSTYLE hWnd &&& WS_EX_NOACTIVATE) != 0 then
    (hasMaximizedWindow, true)
  else if hWnd == hShellWindow || env.GetProp_DesktopWindow hWnd != 0 then
    (hasMaximizedWindow, true)
  else if env.GetWindowPlacement hWnd == some SW_SHOWMAXIMIZED then (true, false)
  else
    let windowRect : RECT := (env.DwmExtendedFrameBounds hWnd).getD RECT.zero
    if EqualRect windowRect rcMonitor then (true, false)
    else (hasMaximizedWindow, true)

def DoesMonitorHaveMaximizedWindow (env : Env) (monitor : HMONITOR)
    (hMMTaskbarWnd : HWND) : Bool :=
  let rcMonitor : RECT := (env.GetMonitorInfo monitor).getD RECT.zero
  let hShellWindow := env.GetShellWindow
  let dwTaskbarThreadId := env.windowThreadId hMMTaskbarWnd
  EnumWindowsOver
    (DoesMonitorHaveMaximizedWindow_enumWindowsProc env monitor rcMonitor hShellWindow
      dwTaskbarThreadId)
    env.topLevelWindows false

/-! ## Event monitor and debouncer -/

/-- The arguments of `WinEventProc` that the callback reads. -/
structure WinEvent where
  event : DWORD
  hWnd : HWND
  idObject : Int
  idChild : Int
  deriving DecidableEq, Repr

/-- The value of the local `hMMTaskbarWnd` in the loop of the timer callback: the
taskbar surface found for a monitor, `0` when there is none. -/
def TimerProc_hMMTaskbarWnd (env : Env) (hTaskbarWnd : HWND)
    (secondaryTaskbarWindows : List HWND) (monitor : HMONITOR) : HWND :=
  if hTaskbarWnd != 0 && env.MonitorFromWindow hTaskbarWnd == monitor then hTaskbarWnd
  else
    match secondaryTaskbarWindows.find? (fun h => env.MonitorFromWindow h == monitor) with
    | some hSecondaryTaskbarWnd => hSecondaryTaskbarWnd
    | none => 0

/-- One turn of the loop over `g_pendingMonitors` in the timer callback. -/
def TimerProc_forMonitor (env : Env) (hTaskbarWnd : HWND)
    (secondaryTaskbarWindows : List HWND) (w : World) (monitor : HMONITOR) : World :=
  let hMMTaskbarWnd : HWND :=
    TimerProc_hMMTaskbarWnd env hTaskbarWnd secondaryTaskbarWindows monitor
  if hMMTaskbarWnd == 0 then w
  else if DoesMonitorHaveMaximizedWindow env monitor hMMTaskbarWnd then
    (SetTaskbarStyle env w hMMTaskbarWnd).1
  else
    (ResetTaskbarStyle env w hMMTaskbarWnd).1

/-- The timer callback that `WinEventProc` passes to `SetTimer`. -/
def TimerProc (env : Env) (w : World) : World :=
  -- KillTimer(nullptr, g_pendingMonitorsTimer); g_pendingMonitorsTimer = 0;
  let w : World :=
    { w with timers := w.timers.filter (fun t => t != w.g_pendingMonitorsTimer),
             g_pendingMonitorsTimer := 0 }
  let found := FindTaskbarWindows env
  let w : World := w.g_pendingMonitors.foldl (TimerProc_forMonitor env found.1 found.2) w
  { w with g_pendingMonitors := [] }

/-- The test at the head of `WinEventProc`: the events that get past both early returns. -/
def WinEventProc_qualifies (env : Env) (ev : WinEvent) : Bool :=
  if ev.idObject != OBJID_WINDOW || (env.GetWindowLong_STYLE ev.hWnd &&& WS_CHILD) != 0 ||
      IsTaskbarWindow env ev.hWnd then false
  else
    let hParentWnd := env.GetAncestor_PARENT ev.hWnd
    if hParentWnd != 0 && hParentWnd != env.GetDesktopWindow then false
    else true

def WinEventProc (env : Env) (ev : WinEvent) (w : World) : World :=
  if !WinEventProc_qualifies env ev then w
  else
    let monitor := env.MonitorFromWindow ev.hWnd
    let w : World := { w with g_pendingMonitors := setInsert w.g_pendingMonitors monitor }
    if w.g_pendingMonitorsTimer != 0 then w
    else
      let id := env.SetTimer
      { w with g_pendingMonitorsTimer := id,
               timers := if id != 0 then w.timers ++ [id] else w.timers }

/-- The window events the three `SetWinEventHook` calls of `WinEventHookThread` ask for. -/
def WinEventHookThread_subscribed (event : DWORD) : Bool :=
  (0x8000 ≤ event && event ≤ 0x8003) || event == 0x800B ||
    (EVENT_OBJECT_CLOAKED ≤ event && event ≤ EVENT_OBJECT_UNCLOAKED)

/-- A run of window events on the listener thread, each seen in its own snapshot. -/
def deliverEvents (events : List (Env × WinEvent)) (w : World) : World :=
  events.foldl (fun w e => WinEventProc e.1 e.2 w) w

/-! ## Style application and lifecycle -/

/-- What `PostThreadMessage(WM_APP)`, `WaitForSingleObject` and `CloseHandle` leave
behind: the listener thread has left its message loop and exited, and its timers
went with it. The globals are untouched. -/
def joinWinEventHookThread (w : World) : World :=
  { w with liveThreads := w.liveThreads.filter (fun h => h != w.g_winEventHookThread),
           timers := [] }

def AdjustTaskbarStyle (env : Env) (w : World) (hWnd : HWND) : World × Bool :=
  if w.g_settings.onlyWhenMaximized then
    let w : World :=
      if w.g_winEventHookThread == 0 then
        { w with g_winEventHookThread := env.CreateThread,
                 liveThreads :=
                   if env.CreateThread != 0 then w.liveThreads ++ [env.CreateThread]
                   else w.liveThreads }
      else w
    let monitor := env.MonitorFromWindow hWnd
    if !DoesMonitorHaveMaximizedWindow env monitor hWnd then ResetTaskbarStyle env w hWnd
    else SetTaskbarStyle env w hWnd
  else SetTaskbarStyle env w hWnd

def SetWindowCompositionAttribute_Hook (env : Env) (w : World) (hWnd : HWND)
    (pAttrData : WINDOWCOMPOSITIONATTRIBDATA) : World × Bool :=
  let original := SetWindowCompositionAttribute_Original env w hWnd pAttrData
  if pAttrData.attrib != WCA_ACCENT_POLICY then original
  else if env.windowThreadId hWnd == 0 ||
      env.windowProcessId hWnd != env.GetCurrentProcessId then original
  else if (GetClassName env hWnd 32).1 == 0 then original
  else if wcsicmp (GetClassName env hWnd 32).2 (L "Shell_TrayWnd") != 0 &&
      wcsicmp (GetClassName env hWnd 32).2 (L "Shell_SecondaryTrayWnd") != 0 then original
  else AdjustTaskbarStyle env w hWnd

def AdjustAllTaskbarStyles (env : Env) (w : World) : World :=
  let found := FindTaskbarWindows env
  let w : World := if found.1 != 0 then (AdjustTaskbarStyle env w found.1).1 else w
  found.2.foldl (fun w hSecondaryWnd => (AdjustTaskbarStyle env w hSecondaryWnd).1) w

/-! ## Settings and module entry points -/

/-- The cast `(BYTE)x` of an `int`. -/
def BYTE (x : Int) : Nat := (x % 256).toNat

/-- The expression `(COLORREF)((BYTE)red | ((WORD)((BYTE)green) << 8) |
(((DWORD)(BYTE)blue) << 16) | (((DWORD)(BYTE)transparency) << 24))`. -/
def packColor (red green blue transparency : Int) : COLORREF :=
  BYTE red ||| (BYTE green <<< 8) ||| (BYTE blue <<< 16) ||| (BYTE transparency <<< 24)

def LoadSettings (env : Env) (w : World) : World :=
  let backgroundStyle := env.Wh_GetStringSetting "backgroundStyle"
  let styleBackgroundStyle : BackgroundStyle :=
    if wcscmp backgroundStyle (L "acrylicBlur") == 0 then BackgroundStyle.acrylicBlur
    else if wcscmp backgroundStyle (L "color") == 0 then BackgroundStyle.color
    else BackgroundStyle.blur
  let red := env.Wh_GetIntSetting "color.red"
  let green := env.Wh_GetIntSetting "color.green"
  let blue := env.Wh_GetIntSetting "color.blue"
  let accentColor : Bool := env.Wh_GetIntSetting "color.accentColor" != 0
  let transparency := env.Wh_GetIntSetting "color.transparency"
  let style : TaskbarStyle :=
    ⟨styleBackgroundStyle, packColor red green blue transparency, accentColor⟩
  let onlyWhenMaximized : Bool := env.Wh_GetIntSetting "onlyWhenMaximized" != 0
  let darkModeStyle : Option TaskbarStyle :=
    if env.Wh_GetIntSetting "styleForDarkMode.use" != 0 then
      let backgroundStyle := env.Wh_GetStringSetting "styleForDarkMode.backgroundStyle"
      let styleBackgroundStyle : BackgroundStyle :=
        if wcscmp backgroundStyle (L "acrylicBlur") == 0 then BackgroundStyle.acrylicBlur
        else if wcscmp backgroundStyle (L "color") == 0 then BackgroundStyle.color
        else BackgroundStyle.blur
      let red := env.Wh_GetIntSetting "styleForDarkMode.color.red"
      let green := env.Wh_GetIntSetting "styleForDarkMode.color.green"
      let blue := env.Wh_GetIntSetting "styleForDarkMode.color.blue"
      let transparency := env.Wh_GetIntSetting "styleForDarkMode.color.transparency"
      some ⟨styleBackgroundStyle, packColor red green blue transparency,
        env.uninitialized_accentColor⟩
    else none
  { w with g_settings := ⟨style, onlyWhenMaximized, darkModeStyle⟩ }

/-- The state of the module when it is loaded: the globals are zero-initialised. -/
def World.initial : World :=
  { g_settings := ⟨⟨BackgroundStyle.blur, 0, false⟩, false, none⟩,
    g_winEventHookThread := 0,
    g_pendingMonitors := [],
    g_pendingMonitorsTimer := 0,
    liveThreads := [],
    timers := [],
    calls := [],
    hooked := false }

def Wh_ModInit (env : Env) (w : World) : World × Bool :=
  let w := LoadSettings env w
  if !env.LoadLibrary_user32 then (w, false)
  else if !env.GetProcAddress_SetWindowCompositionAttribute then (w, false)
  else ({ w with hooked := true }, true)

def Wh_ModAfterInit (env : Env) (w : World) : World :=
  if env.GetClassInfo_Shell_TrayWnd then AdjustAllTaskbarStyles env w else w

def Wh_ModUninit (env : Env) (w : World) : World :=
  let w : World :=
    if w.g_winEventHookThread != 0 then
      { joinWinEventHookThread w with g_winEventHookThread := 0 }
    else w
  let found := FindTaskbarWindows env
  let w : World := if found.1 != 0 then (ResetTaskbarStyle env w found.1).1 else w
  found.2.foldl (fun w hSecondaryWnd => (ResetTaskbarStyle env w hSecondaryWnd).1) w

/-- The first half of `Wh_ModSettingsChanged`: everything before the closing call
of `AdjustAllTaskbarStyles`. -/
def Wh_ModSettingsChanged_reload (env : Env) (w : World) : World :=
  let w := LoadSettings env w
  if !w.g_settings.onlyWhenMaximized then
    if w.g_winEventHookThread != 0 then
      { joinWinEventHookThread w with g_winEventHookThread := 0 }
    else w
  else w

def Wh_ModSettingsChanged (env : Env) (w : World) : World :=
  AdjustAllTaskbarStyles env (Wh_ModSettingsChanged_reload env w)

/-- The steps the module takes after `Wh_ModInit`, one at a time. -/
inductive ModOp where
  | afterInit
  | hookCall (hWnd : HWND) (pAttrData : WINDOWCOMPOSITIONATTRIBDATA)
  | settingsChanged
  | uninit
  | winEvent (ev : WinEvent)
  | timerFired
  deriving DecidableEq, Repr

def ModOp.run (env : Env) (w : World) : ModOp → World
  | ModOp.afterInit => Wh_ModAfterInit env w
  | ModOp.hookCall hWnd pAttrData => (SetWindowCompositionAttribute_Hook env w hWnd pAttrData).1
  | ModOp.settingsChanged => Wh_ModSettingsChanged env w
  | ModOp.uninit => Wh_ModUninit env w
  | ModOp.winEvent ev => WinEventProc env ev w
  | ModOp.timerFired => TimerProc env w

/-- A run of the module: `Wh_ModInit` on the freshly loaded module, then the given
steps in order, each in its own snapshot of the system. -/
def runModule (envInit : Env) (ops : List (Env × ModOp)) : World :=
  ops.foldl (fun w op => op.2.run op.1 w) (Wh_ModInit envInit World.initial).1

/-! ## Properties named in the specification -/

/-- The eligible window of the specification for display `D` and taskbar surface `T` (section 4.3,
steps 1 to 4): not owned by the thread of `T`, nearest display `D`, visible, not
cloaked, not minimized, without the do-not-activate bit, not the shell window and
not tagged `DesktopWindow`. -/
def eligibleWindow (env : Env) (D : HMONITOR) (T : HWND) (h : HWND) : Prop :=
  env.windowThreadId h ≠ env.windowThreadId T ∧
  env.MonitorFromWindow h = D ∧
  env.IsWindowVisible h = true ∧
  IsWindowCloaked env h = false ∧
  env.IsIconic h = false ∧
  env.GetWindowLong_EXSTYLE h &&& WS_EX_NOACTIVATE = 0 ∧
  h ≠ env.GetShellWindow ∧
  env.GetProp_DesktopWindow h = 0

instance (env : Env) (D : HMONITOR) (T h : HWND) : Decidable (eligibleWindow env D T h) := by
  unfold eligibleWindow
  infer_instance

/-- The occupying window of the specification (section 4.3, step 5): placed as exactly maximized,
or with a frame rectangle equal to the monitor rectangle of `D`. The rectangles are
the ones the two queries leave in their zero-initialised buffers. -/
def occupyingWindow (env : Env) (D : HMONITOR) (h : HWND) : Prop :=
  env.GetWindowPlacement h = some SW_SHOWMAXIMIZED ∨
  (env.DwmExtendedFrameBounds h).getD RECT.zero = (env.GetMonitorInfo D).getD RECT.zero

instance (env : Env) (D : HMONITOR) (h : HWND) : Decidable (occupyingWindow env D h) := by
  unfold occupyingWindow
  infer_instance

/-- Two class names that agree up to the case of their letters; window class names
are compared this way. -/
def sameClassName (a b : WString) : Prop :=
  a.map towlower = b.map towlower

instance (a b : WString) : Decidable (sameClassName a b) := by
  unfold sameClassName
  infer_instance

/-- The taskbar surface class of the specification (section 4.5): the window has a class name and
it is `Shell_TrayWnd` or `Shell_SecondaryTrayWnd`. -/
def hasTaskbarClass (env : Env) (hWnd : HWND) : Prop :=
  match env.className hWnd with
  | none => False
  | some name =>
    sameClassName name (L "Shell_TrayWnd") ∨ sameClassName name (L "Shell_SecondaryTrayWnd")

instance (env : Env) (hWnd : HWND) : Decidable (hasTaskbarClass env hWnd) := by
  unfold hasTaskbarClass
  split <;> infer_instance

/-- The matched call of the specification (section 4.5): the attribute is the accent policy, the
window belongs to the current process, and its class is a taskbar surface class. -/
def hookMatches (env : Env) (hWnd : HWND) (pAttrData : WINDOWCOMPOSITIONATTRIBDATA) : Prop :=
  pAttrData.attrib = WCA_ACCENT_POLICY ∧
  (env.windowThreadId hWnd ≠ 0 ∧ env.windowProcessId hWnd = env.GetCurrentProcessId) ∧
  hasTaskbarClass env hWnd

instance (env : Env) (hWnd : HWND) (pAttrData : WINDOWCOMPOSITIONATTRIBDATA) :
    Decidable (hookMatches env hWnd pAttrData) := by
  unfold hookMatches
  infer_instance

/-- The buffer `ResetTaskbarStyle` passes on. -/
def resetData : WINDOWCOMPOSITIONATTRIBDATA :=
  ⟨WCA_ACCENT_POLICY, PvData.policy ⟨ACCENT_ENABLE_TRANSPARENTGRADIENT, 0x13, 0, 0⟩,
    sizeof_ACCENTPOLICY⟩

/-- The buffer `SetTaskbarStyle` passes on. -/
def styleData (env : Env) (settings : Settings) : WINDOWCOMPOSITIONATTRIBDATA :=
  ⟨WCA_ACCENT_POLICY, PvData.policy (SetTaskbarStyle_policy env settings),
    sizeof_ACCENTPOLICY⟩

/-- The call that one turn of the loop of the timer callback makes for a monitor:
none when no taskbar surface is found on it, else the style or the reset buffer
for the surface found. -/
def TimerProc_call (env : Env) (settings : Settings) (hTaskbarWnd : HWND)
    (secondaryTaskbarWindows : List HWND) (monitor : HMONITOR) :
    Option (HWND × WINDOWCOMPOSITIONATTRIBDATA) :=
  if TimerProc_hMMTaskbarWnd env hTaskbarWnd secondaryTaskbarWindows monitor = 0 then none
  else
    some (TimerProc_hMMTaskbarWnd env hTaskbarWnd secondaryTaskbarWindows monitor,
      if DoesMonitorHaveMaximizedWindow env monitor
          (TimerProc_hMMTaskbarWnd env hTaskbarWnd secondaryTaskbarWindows monitor) = true then
        styleData env settings
      else resetData)

/-- The listener invariant: the handle is null exactly when no listener thread is
alive, a non-null handle is the handle of the one live thread, and with
`onlyWhenMaximized` off the handle is null. -/
def listenerOk (w : World) : Prop :=
  (w.g_winEventHookThread = 0 → w.liveThreads = []) ∧
  (w.g_winEventHookThread ≠ 0 → w.liveThreads = [w.g_winEventHookThread]) ∧
  (w.g_settings.onlyWhenMaximized = false → w.g_winEventHookThread = 0)

instance (w : World) : Decidable (listenerOk w) := by
  unfold listenerOk
  infer_instance

/-! ## Concrete snapshots -/

/-- A snapshot with light theme, no windows, and the documented default settings. -/
def Env.sample : Env :=
  { RegGetValue_AppsUseLightTheme := some 1,
    GetColorValue_Accent := Except.ok ⟨255, 0, 120, 215⟩,
    topLevelWindows := [],
    threadWindows := fun _ => [],
    windowThreadId := fun _ => 0,
    windowProcessId := fun _ => 0,
    GetCurrentProcessId := 4000,
    className := fun _ => none,
    MonitorFromWindow := fun _ => 1,
    GetMonitorInfo := fun m => if m = 1 then some ⟨0, 0, 1920, 1080⟩ else none,
    GetShellWindow := 0,
    GetDesktopWindow := 0,
    IsWindowVisible := fun _ => false,
    IsIconic := fun _ => false,
    DwmCloaked := fun _ => none,
    DwmExtendedFrameBounds := fun _ => none,
    GetWindowLong_EXSTYLE := fun _ => 0,
    GetWindowLong_STYLE := fun _ => 0,
    GetProp_DesktopWindow := fun _ => 0,
    GetWindowPlacement := fun _ => none,
    GetAncestor_PARENT := fun _ => 0,
    SetWindowCompositionAttribute_Result := fun _ _ => true,
    CreateThread := 900,
    SetTimer := 77,
    GetClassInfo_Shell_TrayWnd := true,
    LoadLibrary_user32 := true,
    GetProcAddress_SetWindowCompositionAttribute := true,
    Wh_GetIntSetting := fun name =>
      if name = "color.red" then 255
      else if name = "color.green" then 127
      else if name = "color.blue" then 39
      else if name = "color.transparency" then 128
      else if name = "onlyWhenMaximized" then 1
      else if name = "styleForDarkMode.color.red" then 255
      else if name = "styleForDarkMode.color.green" then 127
      else if name = "styleForDarkMode.color.blue" then 39
      else if name = "styleForDarkMode.color.transparency" then 128
      else 0,
    Wh_GetStringSetting := fun _ => L "blur",
    uninitialized_accentColor := false }

/-- A desktop with one display (handle 1, 1920 by 1080): the primary taskbar is
window 10 on thread 7 of process 4000, window 20 is a window of another process,
placed as maximized, and window 30 is a full-screen overlay that is not. -/
def Env.desktop : Env :=
  { Env.sample with
    topLevelWindows := [10, 20, 30],
    threadWindows := fun t => if t = 7 then [10] else [],
    windowThreadId := fun h => if h = 10 then 7 else if h = 20 then 8 else if h = 30 then 9 else 0,
    windowProcessId := fun h => if h = 10 then 4000 else 5000,
    className := fun h =>
      if h = 10 then some (L "Shell_TrayWnd") else some (L "Notepad"),
    IsWindowVisible := fun _ => true,
    DwmCloaked := fun _ => some 0,
    DwmExtendedFrameBounds := fun h =>
      if h = 30 then some ⟨0, 0, 1920, 1080⟩ else some ⟨-8, -8, 1928, 1040⟩,
    GetWindowPlacement := fun h => if h = 20 then some 3 else some 1 }

/-- The desktop with the setting `onlyWhenMaximized` (and every other integer
setting) changed to 0. -/
def Env.desktopAlways : Env :=
  { Env.desktop with Wh_GetIntSetting := fun _ => 0 }

/-- A world in the debouncing state: the module was loaded on the desktop with
`onlyWhenMaximized` on, post-init started the listener, and the listener got one
qualifying event for window 20, so display 1 is pending and timer 77 is set. -/
def World.debouncing : World :=
  runModule Env.desktop
    [(Env.desktop, ModOp.afterInit), (Env.desktop, ModOp.winEvent ⟨0x8002, 20, 0, 0⟩)]

/-- The sample snapshot with the dark theme active and the settings changed to use
a separate dark-mode style with its option `Current theme accent color` enabled. -/
def Env.darkAccent : Env :=
  { Env.sample with
    RegGetValue_AppsUseLightTheme := some 0,
    Wh_GetIntSetting := fun name =>
      if name = "styleForDarkMode.use" then 1
      else if name = "styleForDarkMode.color.accentColor" then 1
      else Env.sample.Wh_GetIntSetting name }

/-! ## Theorems: style resolver -/

theorem SetTaskbarStyle_eq (env : Env) (w : World) (hWnd : HWND) :
    SetTaskbarStyle env w hWnd =
      ({ w with calls := w.calls ++ [(hWnd,
          ⟨WCA_ACCENT_POLICY, PvData.policy (SetTaskbarStyle_policy env w.g_settings), 16⟩)] },
        env.SetWindowCompositionAttribute_Result hWnd
          ⟨WCA_ACCENT_POLICY, PvData.policy (SetTaskbarStyle_policy env w.g_settings), 16⟩) :=
  rfl

theorem ResetTaskbarStyle_eq (env : Env) (w : World) (hWnd : HWND) :
    ResetTaskbarStyle env w hWnd =
      ({ w with calls := w.calls ++ [(hWnd,
          ⟨WCA_ACCENT_POLICY,
            PvData.policy ⟨ACCENT_ENABLE_TRANSPARENTGRADIENT, 0x13, 0, 0⟩, 16⟩)] },
        env.SetWindowCompositionAttribute_Result hWnd
          ⟨WCA_ACCENT_POLICY,
            PvData.policy ⟨ACCENT_ENABLE_TRANSPARENTGRADIENT, 0x13, 0, 0⟩, 16⟩) :=
  rfl

/-- C1: `SetTaskbarStyle` picks the dark-mode override exactly when one exists and
dark mode is active, and the default style otherwise; it sends one accent-policy
call whose accent kind and flags are fixed by the picked style: blur gives
`ACCENT_ENABLE_BLURBEHIND` with flags 0, acrylicBlur gives
`ACCENT_ENABLE_ACRYLICBLURBEHIND` with flags 0, color gives
`ACCENT_ENABLE_TRANSPARENTGRADIENT` with flags 0x13. -/
theorem SetTaskbarStyle_resolves (env : Env) (w : World) (hWnd : HWND) :
    (∀ d, w.g_settings.darkModeStyle = some d → IsWindowsDarkModeEnabled env = true →
      SetTaskbarStyle_style env w.g_settings = d) ∧
    (w.g_settings.darkModeStyle = none ∨ IsWindowsDarkModeEnabled env = false →
      SetTaskbarStyle_style env w.g_settings = w.g_settings.style) ∧
    (∃ color,
      (SetTaskbarStyle env w hWnd).1.calls = w.calls ++ [(hWnd,
        ⟨WCA_ACCENT_POLICY, PvData.policy
          ⟨match (SetTaskbarStyle_style env w.g_settings).backgroundStyle with
            | BackgroundStyle.blur => ACCENT_ENABLE_BLURBEHIND
            | BackgroundStyle.acrylicBlur => ACCENT_ENABLE_ACRYLICBLURBEHIND
            | BackgroundStyle.color => ACCENT_ENABLE_TRANSPARENTGRADIENT,
           match (SetTaskbarStyle_style env w.g_settings).backgroundStyle with
            | BackgroundStyle.blur => 0
            | BackgroundStyle.acrylicBlur => 0
            | BackgroundStyle.color => 0x13,
           color, 0⟩, 16⟩)] ∧
      ((SetTaskbarStyle_style env w.g_settings).accentColor = false →
        color = (SetTaskbarStyle_style env w.g_settings).color)) := by
  refine ⟨?_, ?_, ?_⟩
  · intro d hd hdark
    simp [SetTaskbarStyle_style, hd, hdark]
  · intro h
    rcases h with h | h
    · simp [SetTaskbarStyle_style, h]
    · cases hd : w.g_settings.darkModeStyle <;> simp [SetTaskbarStyle_style, hd, h]
  · refine ⟨(SetTaskbarStyle_policy env w.g_settings).gradientColor, ?_, ?_⟩
    · rw [SetTaskbarStyle_eq]
      simp only [SetTaskbarStyle_policy]
      cases (SetTaskbarStyle_style env w.g_settings).backgroundStyle <;> rfl
    · intro h
      simp only [SetTaskbarStyle_policy]
      cases (SetTaskbarStyle_style env w.g_settings).backgroundStyle <;> simp [h]

/-- C1, at a concrete input: with a color override for dark mode and the dark
theme active, the override is picked and sent as a transparent gradient with
flags 0x13. -/
theorem SetTaskbarStyle_resolves_witness :
    SetTaskbarStyle_style { Env.sample with RegGetValue_AppsUseLightTheme := some 0 }
        ⟨⟨BackgroundStyle.blur, 5, false⟩, false, some ⟨BackgroundStyle.color, 9, false⟩⟩ =
      ⟨BackgroundStyle.color, 9, false⟩ ∧
    (SetTaskbarStyle { Env.sample with RegGetValue_AppsUseLightTheme := some 0 }
        { World.initial with g_settings :=
            ⟨⟨BackgroundStyle.blur, 5, false⟩, false, some ⟨BackgroundStyle.color, 9, false⟩⟩ }
        10).1.calls =
      [(10, ⟨WCA_ACCENT_POLICY,
        PvData.policy ⟨ACCENT_ENABLE_TRANSPARENTGRADIENT, 0x13, 9, 0⟩, 16⟩)] :=
  ⟨(SetTaskbarStyle_resolves { Env.sample with RegGetValue_AppsUseLightTheme := some 0 }
      { World.initial with g_settings :=
          ⟨⟨BackgroundStyle.blur, 5, false⟩, false, some ⟨BackgroundStyle.color, 9, false⟩⟩ }
      10).1 ⟨BackgroundStyle.color, 9, false⟩ rfl (by decide),
    by decide⟩

theorem BYTE_lt (x : Int) : BYTE x < 256 := by
  unfold BYTE
  have h1 : x % 256 < 256 := Int.emod_lt_of_pos x (by norm_num)
  have h2 : 0 ≤ x % 256 := Int.emod_nonneg x (by norm_num)
  omega

theorem BYTE_of_range (x : Int) (h0 : 0 ≤ x) (h1 : x < 256) : (BYTE x : Int) = x := by
  unfold BYTE
  have h : x % 256 = x := Int.emod_eq_of_lt h0 h1
  rw [h]
  exact Int.toNat_of_nonneg h0

/-- Bytes put side by side with shifts and `|||` add up. -/
theorem or_bytes_eq_add (r g b hi : Nat) (hr : r < 256) (hg : g < 256) (hb : b < 256) :
    r ||| (g <<< 8) ||| (b <<< 16) ||| (hi <<< 24) =
      r + 256 * g + 65536 * b + 16777216 * hi := by
  have e1 : r ||| (g <<< 8) = r + 256 * g := by
    have hlt : r < 2 ^ 8 := by norm_num; exact hr
    rw [Nat.shiftLeft_eq, Nat.or_comm, Nat.mul_comm g (2 ^ 8), ← Nat.mul_add_lt_is_or hlt g]
    norm_num
    omega
  have e2 : (r + 256 * g) ||| (b <<< 16) = r + 256 * g + 65536 * b := by
    have hlt : r + 256 * g < 2 ^ 16 := by norm_num; omega
    rw [Nat.shiftLeft_eq, Nat.or_comm, Nat.mul_comm b (2 ^ 16), ← Nat.mul_add_lt_is_or hlt b]
    norm_num
    omega
  have e3 : (r + 256 * g + 65536 * b) ||| (hi <<< 24) =
      r + 256 * g + 65536 * b + 16777216 * hi := by
    have hlt : r + 256 * g + 65536 * b < 2 ^ 24 := by norm_num; omega
    rw [Nat.shiftLeft_eq, Nat.or_comm, Nat.mul_comm hi (2 ^ 24),
      ← Nat.mul_add_lt_is_or hlt hi]
    norm_num
    omega
  rw [e1, e2, e3]

theorem packColor_eq (red green blue transparency : Int) :
    packColor red green blue transparency =
      BYTE red + 256 * BYTE green + 65536 * BYTE blue + 16777216 * BYTE transparency :=
  or_bytes_eq_add _ _ _ _ (BYTE_lt red) (BYTE_lt green) (BYTE_lt blue)

theorem packColor_low (red green blue transparency : Int) :
    packColor red green blue transparency % 2 ^ 24 =
      BYTE red + BYTE green * 2 ^ 8 + BYTE blue * 2 ^ 16 := by
  have hr := BYTE_lt red
  have hg := BYTE_lt green
  have hb := BYTE_lt blue
  rw [packColor_eq]
  simp only [show (2 : Nat) ^ 24 = 16777216 by norm_num, show (2 : Nat) ^ 8 = 256 by norm_num,
    show (2 : Nat) ^ 16 = 65536 by norm_num]
  rw [Nat.add_mul_mod_self_left, Nat.mod_eq_of_lt (by omega)]
  ring

theorem packColor_high (red green blue transparency : Int) :
    packColor red green blue transparency / 2 ^ 24 = BYTE transparency := by
  have hr := BYTE_lt red
  have hg := BYTE_lt green
  have hb := BYTE_lt blue
  rw [packColor_eq]
  simp only [show (2 : Nat) ^ 24 = 16777216 by norm_num]
  rw [Nat.add_mul_div_left _ _ (by norm_num), Nat.div_eq_of_lt (by omega)]
  omega

/-- C2: when the picked style asks for the accent color and the lookup throws,
`SetTaskbarStyle` still makes its call, and the color it sends is the configured
color of the picked style, unchanged. For settings read by `LoadSettings` that
color has the configured red, green and blue bytes in its low 24 bits and the
configured transparency byte on top, for the default style and for the dark-mode
style alike; a configured value between 0 and 255 is its own byte. -/
theorem SetTaskbarStyle_accent_fallback (env : Env) (w : World) (hWnd : HWND)
    (e : hresult_error)
    (hacc : (SetTaskbarStyle_style env w.g_settings).accentColor = true)
    (hfail : env.GetColorValue_Accent = Except.error e) :
    (∃ accentState accentFlags,
      SetTaskbarStyle env w hWnd =
        SetWindowCompositionAttribute_Original env w hWnd
          ⟨WCA_ACCENT_POLICY, PvData.policy
            ⟨accentState, accentFlags, (SetTaskbarStyle_style env w.g_settings).color, 0⟩,
            16⟩) ∧
    (∀ (envS : Env) (w0 : World),
      (LoadSettings envS w0).g_settings.style.color % 2 ^ 24 =
          BYTE (envS.Wh_GetIntSetting "color.red") +
            BYTE (envS.Wh_GetIntSetting "color.green") * 2 ^ 8 +
            BYTE (envS.Wh_GetIntSetting "color.blue") * 2 ^ 16 ∧
        (LoadSettings envS w0).g_settings.style.color / 2 ^ 24 =
          BYTE (envS.Wh_GetIntSetting "color.transparency") ∧
        ∀ d, (LoadSettings envS w0).g_settings.darkModeStyle = some d →
          d.color % 2 ^ 24 =
              BYTE (envS.Wh_GetIntSetting "styleForDarkMode.color.red") +
                BYTE (envS.Wh_GetIntSetting "styleForDarkMode.color.green") * 2 ^ 8 +
                BYTE (envS.Wh_GetIntSetting "styleForDarkMode.color.blue") * 2 ^ 16 ∧
            d.color / 2 ^ 24 =
              BYTE (envS.Wh_GetIntSetting "styleForDarkMode.color.transparency")) ∧
    (∀ x : Int, 0 ≤ x → x < 256 → (BYTE x : Int) = x) := by
  refine ⟨?_, ?_, BYTE_of_range⟩
  · refine ⟨(SetTaskbarStyle_policy env w.g_settings).accentState,
      (SetTaskbarStyle_policy env w.g_settings).accentFlags, ?_⟩
    have hc : (SetTaskbarStyle_policy env w.g_settings).gradientColor =
        (SetTaskbarStyle_style env w.g_settings).color := by
      simp only [SetTaskbarStyle_policy, hacc, hfail]
      rfl
    have ha : (SetTaskbarStyle_policy env w.g_settings).animationId = 0 := rfl
    unfold SetTaskbarStyle
    rw [← hc]
    rfl
  · intro envS w0
    refine ⟨packColor_low _ _ _ _, packColor_high _ _ _ _, ?_⟩
    intro d hd
    simp only [LoadSettings] at hd
    split at hd
    · cases hd
      exact ⟨packColor_low _ _ _ _, packColor_high _ _ _ _⟩
    · cases hd

/-- C2, at a concrete input: the default style asks for the accent color, the
lookup throws, and the configured color 0x80277FFF is sent as it is. -/
theorem SetTaskbarStyle_accent_fallback_witness :
    ∃ accentState accentFlags,
      SetTaskbarStyle { Env.sample with GetColorValue_Accent := Except.error ⟨0x80004005⟩ }
          { World.initial with g_settings :=
              ⟨⟨BackgroundStyle.color, 0x80277FFF, true⟩, true, none⟩ } 10 =
        SetWindowCompositionAttribute_Original
          { Env.sample with GetColorValue_Accent := Except.error ⟨0x80004005⟩ }
          { World.initial with g_settings :=
              ⟨⟨BackgroundStyle.color, 0x80277FFF, true⟩, true, none⟩ } 10
          ⟨WCA_ACCENT_POLICY, PvData.policy ⟨accentState, accentFlags, 0x80277FFF, 0⟩, 16⟩ :=
  (SetTaskbarStyle_accent_fallback
    { Env.sample with GetColorValue_Accent := Except.error ⟨0x80004005⟩ }
    { World.initial with g_settings :=
        ⟨⟨BackgroundStyle.color, 0x80277FFF, true⟩, true, none⟩ } 10
    ⟨0x80004005⟩ rfl rfl).1

/-- C3: `ResetTaskbarStyle` always sends exactly the policy
`{ACCENT_ENABLE_TRANSPARENTGRADIENT, 0x13, 0, 0}` as an accent-policy call, whatever
the settings and whatever was sent before; so the buffer sent by a reset that
follows `SetTaskbarStyle` (under any snapshot and settings) and the buffer sent by a
reset of a never-styled surface are the same, byte for byte. -/
theorem ResetTaskbarStyle_buffer (env : Env) (w : World) (hWnd : HWND) :
    (ResetTaskbarStyle env w hWnd).1.calls = w.calls ++ [(hWnd,
      ⟨WCA_ACCENT_POLICY,
        PvData.policy ⟨ACCENT_ENABLE_TRANSPARENTGRADIENT, 0x13, 0, 0⟩, 16⟩)] ∧
    (∀ (env1 env2 : Env) (w1 : World),
      (ResetTaskbarStyle env2 (SetTaskbarStyle env1 w1 hWnd).1 hWnd).1.calls.getLast? =
        (ResetTaskbarStyle env { w with calls := [] } hWnd).1.calls.getLast?) ∧
    ACCENTPOLICY.bytes ⟨ACCENT_ENABLE_TRANSPARENTGRADIENT, 0x13, 0, 0⟩ =
      [2, 0, 0, 0, 0x13, 0, 0, 0, 0, 0, 0, 0, 0, 0, 0, 0] := by
  refine ⟨rfl, ?_, by decide⟩
  intro env1 env2 w1
  simp [ResetTaskbarStyle_eq]

/-! ## Theorems: occupancy detector -/

theorem EqualRect_iff (a b : RECT) : EqualRect a b = true ↔ a = b := by
  cases a
  cases b
  simp [EqualRect, and_assoc]

/-- The callback stops the enumeration with `true` on an eligible occupying window
and passes over every other window. -/
theorem enumWindowsProc_eq (env : Env) (D : HMONITOR) (T : HWND) (h : HWND) (acc : Bool) :
    DoesMonitorHaveMaximizedWindow_enumWindowsProc env D
        ((env.GetMonitorInfo D).getD RECT.zero) env.GetShellWindow (env.windowThreadId T)
        h acc =
      if eligibleWindow env D T h ∧ occupyingWindow env D h then (true, false)
      else (acc, true) := by
  unfold DoesMonitorHaveMaximizedWindow_enumWindowsProc eligibleWindow occupyingWindow
  by_cases h1 : env.windowThreadId h = env.windowThreadId T
  · simp [h1]
  by_cases h2 : env.MonitorFromWindow h = D
  swap
  · simp [h1, h2]
  by_cases h3 : env.IsWindowVisible h = true
  swap
  · simp [h1, h2, h3]
  by_cases h4 : IsWindowCloaked env h = true
  · simp [h1, h2, h3, h4]
  by_cases h5 : env.IsIconic h = true
  · simp [h1, h2, h3, h4, h5]
  by_cases h6 : env.GetWindowLong_EXSTYLE h &&& WS_EX_NOACTIVATE = 0
  swap
  · simp [h1, h2, h3, h4, h5, h6]
  by_cases h7 : h = env.GetShellWindow
  · simp [h1, h2, h3, h4, h5, h6, h7]
  by_cases h8 : env.GetProp_DesktopWindow h = 0
  swap
  · simp [h1, h2, h3, h4, h5, h6, h7, h8]
  by_cases h9 : env.GetWindowPlacement h = some SW_SHOWMAXIMIZED
  · simp [h1, h2, h3, h4, h5, h6, h7, h8, h9]
  by_cases h10 : (env.DwmExtendedFrameBounds h).getD RECT.zero =
      (env.GetMonitorInfo D).getD RECT.zero
  · have hE := (EqualRect_iff ((env.GetMonitorInfo D).getD RECT.zero) _).2 rfl
    simp [h1, h2, h3, h4, h5, h6, h7, h8, h9, h10, hE]
  · have hE : EqualRect ((env.DwmExtendedFrameBounds h).getD RECT.zero)
        ((env.GetMonitorInfo D).getD RECT.zero) = false := by
      cases hq : EqualRect ((env.DwmExtendedFrameBounds h).getD RECT.zero)
        ((env.GetMonitorInfo D).getD RECT.zero)
      · rfl
      · exact absurd ((EqualRect_iff _ _).1 hq) h10
    simp [h1, h2, h3, h4, h5, h6, h7, h8, h9, h10, hE]

theorem EnumWindowsOver_hit {P : HWND → Prop} [DecidablePred P] (proc : HWND → Bool → Bool × Bool)
    (hproc : ∀ h acc, proc h acc = if P h then (true, false) else (acc, true))
    (ws : List HWND) :
    EnumWindowsOver proc ws false = true ↔ ∃ h ∈ ws, P h := by
  induction ws with
  | nil => simp [EnumWindowsOver]
  | cons h rest ih =>
    by_cases hp : P h
    · simp [EnumWindowsOver, hproc, hp]
    · simp [EnumWindowsOver, hproc, hp, ih]

theorem DoesMonitorHaveMaximizedWindow_iff_exists (env : Env) (D : HMONITOR) (T : HWND) :
    DoesMonitorHaveMaximizedWindow env D T = true ↔
      ∃ h ∈ env.topLevelWindows, eligibleWindow env D T h ∧ occupyingWindow env D h := by
  unfold DoesMonitorHaveMaximizedWindow
  exact EnumWindowsOver_hit (P := fun h => eligibleWindow env D T h ∧ occupyingWindow env D h)
    _ (fun h acc => enumWindowsProc_eq env D T h acc) env.topLevelWindows

/-- C4: `DoesMonitorHaveMaximizedWindow D T` is true exactly when some top-level
window is eligible (not on the thread of `T`, nearest display `D`, visible, not
cloaked, not minimized, no do-not-activate bit, not the shell window, not tagged
`DesktopWindow`) and is placed as maximized or has a frame rectangle equal to the
monitor rectangle of `D`. When the monitor query answers with a rectangle that is
not all zero, the frame query must have answered with that very rectangle. In
particular a window on the thread of `T` never changes the result, an eligible
non-maximized window whose frame is the monitor rectangle gives true, and when
every window on `D` is minimized or cloaked the result is false. -/
theorem DoesMonitorHaveMaximizedWindow_spec (env : Env) (D : HMONITOR) (T : HWND) :
    (DoesMonitorHaveMaximizedWindow env D T = true ↔
      ∃ h ∈ env.topLevelWindows, eligibleWindow env D T h ∧ occupyingWindow env D h) ∧
    (∀ rc, env.GetMonitorInfo D = some rc → rc ≠ RECT.zero →
      (DoesMonitorHaveMaximizedWindow env D T = true ↔
        ∃ h ∈ env.topLevelWindows, eligibleWindow env D T h ∧
          (env.GetWindowPlacement h = some SW_SHOWMAXIMIZED ∨
            env.DwmExtendedFrameBounds h = some rc))) ∧
    (∀ (before after : List HWND) (h : HWND),
      env.windowThreadId h = env.windowThreadId T →
      DoesMonitorHaveMaximizedWindow
          { env with topLevelWindows := before ++ h :: after } D T =
        DoesMonitorHaveMaximizedWindow { env with topLevelWindows := before ++ after } D T) ∧
    (∀ (h : HWND) (rc : RECT), h ∈ env.topLevelWindows → eligibleWindow env D T h →
      env.GetWindowPlacement h ≠ some SW_SHOWMAXIMIZED →
      env.DwmExtendedFrameBounds h = some rc → env.GetMonitorInfo D = some rc →
      DoesMonitorHaveMaximizedWindow env D T = true) ∧
    ((∀ h ∈ env.topLevelWindows, env.MonitorFromWindow h = D →
        env.IsIconic h = true ∨ IsWindowCloaked env h = true) →
      DoesMonitorHaveMaximizedWindow env D T = false) := by
  refine ⟨DoesMonitorHaveMaximizedWindow_iff_exists env D T, ?_, ?_, ?_, ?_⟩
  · intro rc hrc hnz
    rw [DoesMonitorHaveMaximizedWindow_iff_exists]
    constructor
    · rintro ⟨h, hmem, helig, hocc⟩
      refine ⟨h, hmem, helig, ?_⟩
      rcases hocc with hocc | hocc
      · exact Or.inl hocc
      · right
        rw [hrc] at hocc
        cases hf : env.DwmExtendedFrameBounds h with
        | none =>
          rw [hf] at hocc
          exact absurd hocc.symm hnz
        | some r =>
          rw [hf] at hocc
          exact congrArg some hocc
    · rintro ⟨h, hmem, helig, hocc⟩
      refine ⟨h, hmem, helig, ?_⟩
      rcases hocc with hocc | hocc
      · exact Or.inl hocc
      · right
        rw [hrc, hocc]
  · intro before after h hthread
    rw [Bool.eq_iff_iff, DoesMonitorHaveMaximizedWindow_iff_exists,
      DoesMonitorHaveMaximizedWindow_iff_exists]
    constructor
    · rintro ⟨x, hmem, helig, hocc⟩
      have hmem2 : x ∈ before ++ h :: after := hmem
      rcases List.mem_append.1 hmem2 with hx | hx
      · exact ⟨x, List.mem_append.2 (Or.inl hx), helig, hocc⟩
      · rcases List.mem_cons.1 hx with hx | hx
        · subst hx
          exact absurd hthread helig.1
        · exact ⟨x, List.mem_append.2 (Or.inr hx), helig, hocc⟩
    · rintro ⟨x, hmem, helig, hocc⟩
      have hmem2 : x ∈ before ++ after := hmem
      refine ⟨x, ?_, helig, hocc⟩
      show x ∈ before ++ h :: after
      rcases List.mem_append.1 hmem2 with hx | hx
      · exact List.mem_append.2 (Or.inl hx)
      · exact List.mem_append.2 (Or.inr (List.mem_cons_of_mem _ hx))
  · intro h rc hmem helig _ hframe hmon
    rw [DoesMonitorHaveMaximizedWindow_iff_exists]
    refine ⟨h, hmem, helig, Or.inr ?_⟩
    rw [hframe, hmon]
  · intro hall
    cases hres : DoesMonitorHaveMaximizedWindow env D T
    · rfl
    · obtain ⟨h, hmem, helig, _⟩ := (DoesMonitorHaveMaximizedWindow_iff_exists env D T).1 hres
      rcases hall h hmem helig.2.1 with hi | hc
      · have := helig.2.2.2.2.1
        rw [hi] at this
        cases this
      · have := helig.2.2.2.1
        rw [hc] at this
        cases this

/-- C4, at a concrete desktop: the full-screen overlay (window 30), which is not
placed as maximized, makes display 1 occupied; a maximized window on the thread of
the taskbar changes nothing; and with every window minimized the result is false. -/
theorem DoesMonitorHaveMaximizedWindow_spec_witness :
    DoesMonitorHaveMaximizedWindow { Env.desktop with topLevelWindows := [10, 30] } 1 10 =
      true ∧
    DoesMonitorHaveMaximizedWindow
        { { Env.desktop with GetWindowPlacement := fun _ => some 3 } with
          topLevelWindows := [] ++ 10 :: [] } 1 10 =
      DoesMonitorHaveMaximizedWindow
        { { Env.desktop with GetWindowPlacement := fun _ => some 3 } with
          topLevelWindows := [] ++ [] } 1 10 ∧
    DoesMonitorHaveMaximizedWindow { Env.desktop with IsIconic := fun _ => true } 1 10 =
      false :=
  ⟨(DoesMonitorHaveMaximizedWindow_spec { Env.desktop with topLevelWindows := [10, 30] }
      1 10).2.2.2.1 30 ⟨0, 0, 1920, 1080⟩ (by decide) (by decide) (by decide) rfl rfl,
    (DoesMonitorHaveMaximizedWindow_spec
      { Env.desktop with GetWindowPlacement := fun _ => some 3 } 1 10).2.2.1 [] [] 10 rfl,
    (DoesMonitorHaveMaximizedWindow_spec { Env.desktop with IsIconic := fun _ => true }
      1 10).2.2.2.2 (fun _ _ _ => Or.inl rfl)⟩

/-! ## Theorems: interception point -/

theorem wcsicmp_eq_zero_iff (a b : WString) : wcsicmp a b = 0 ↔ sameClassName a b := by
  unfold sameClassName
  induction a generalizing b with
  | nil => cases b <;> simp [wcsicmp]
  | cons x xs ih =>
    cases b with
    | nil => simp [wcsicmp]
    | cons y ys =>
      by_cases hxy : towlower x = towlower y
      · simp [wcsicmp, hxy, ih]
      · by_cases hlt : towlower x < towlower y <;> simp [wcsicmp, hxy, hlt]

theorem sameClassName_take (name t : WString) (n : Nat) (hlen : t.length < n) :
    sameClassName (name.take n) t ↔ sameClassName name t := by
  unfold sameClassName
  constructor
  · intro h
    have hl := congrArg List.length h
    simp only [List.length_map, List.length_take] at hl
    have hle : name.length ≤ n := by omega
    rwa [List.take_of_length_le hle] at h
  · intro h
    have hl := congrArg List.length h
    simp only [List.length_map] at hl
    have hle : name.length ≤ n := by omega
    rwa [List.take_of_length_le hle]

theorem sameClassName_ne_nil (name t : WString) (ht : t ≠ []) (h : sameClassName name t) :
    name ≠ [] := by
  intro hn
  subst hn
  unfold sameClassName at h
  cases t with
  | nil => exact ht rfl
  | cons y ys => simp at h

/-- The class test of the source, on the 32-character buffer, is the class test of
the specification. -/
theorem classTest_iff (env : Env) (hWnd : HWND) :
    ((GetClassName env hWnd 32).1 ≠ 0 ∧
      (wcsicmp (GetClassName env hWnd 32).2 (L "Shell_TrayWnd") = 0 ∨
        wcsicmp (GetClassName env hWnd 32).2 (L "Shell_SecondaryTrayWnd") = 0)) ↔
      hasTaskbarClass env hWnd := by
  unfold GetClassName hasTaskbarClass
  cases hc : env.className hWnd with
  | none => simp
  | some name =>
    simp only [wcsicmp_eq_zero_iff]
    have h1 : (L "Shell_TrayWnd").length < 32 - 1 := by decide
    have h2 : (L "Shell_SecondaryTrayWnd").length < 32 - 1 := by decide
    rw [sameClassName_take name _ _ h1, sameClassName_take name _ _ h2]
    constructor
    · exact fun h => h.2
    · intro h
      refine ⟨?_, h⟩
      have hne : name ≠ [] := by
        rcases h with h | h
        · exact sameClassName_ne_nil name _ (by decide) h
        · exact sameClassName_ne_nil name _ (by decide) h
      cases name with
      | nil => exact absurd rfl hne
      | cons x xs => simp

theorem IsTaskbarWindow_iff (env : Env) (hWnd : HWND) :
    IsTaskbarWindow env hWnd = true ↔ hasTaskbarClass env hWnd := by
  rw [← classTest_iff]
  unfold IsTaskbarWindow
  by_cases h : (GetClassName env hWnd 32).1 = 0
  · simp [h]
  · simp [h]

theorem Hook_eq (env : Env) (w : World) (hWnd : HWND)
    (pAttrData : WINDOWCOMPOSITIONATTRIBDATA) :
    SetWindowCompositionAttribute_Hook env w hWnd pAttrData =
      if hookMatches env hWnd pAttrData then AdjustTaskbarStyle env w hWnd
      else SetWindowCompositionAttribute_Original env w hWnd pAttrData := by
  have hiff : hookMatches env hWnd pAttrData ↔
      pAttrData.attrib = WCA_ACCENT_POLICY ∧
        (env.windowThreadId hWnd ≠ 0 ∧ env.windowProcessId hWnd = env.GetCurrentProcessId) ∧
        ((GetClassName env hWnd 32).1 ≠ 0 ∧
          (wcsicmp (GetClassName env hWnd 32).2 (L "Shell_TrayWnd") = 0 ∨
            wcsicmp (GetClassName env hWnd 32).2 (L "Shell_SecondaryTrayWnd") = 0)) := by
    unfold hookMatches
    rw [classTest_iff]
  by_cases hm : hookMatches env hWnd pAttrData
  · rw [if_pos hm]
    obtain ⟨h1, ⟨h2, h3⟩, h4, h5⟩ := hiff.1 hm
    unfold SetWindowCompositionAttribute_Hook
    rcases h5 with h5 | h5 <;> simp [h1, h2, h3, h4, h5]
  · rw [if_neg hm]
    rw [hiff] at hm
    unfold SetWindowCompositionAttribute_Hook
    by_cases h1 : pAttrData.attrib = WCA_ACCENT_POLICY
    swap
    · simp [h1]
    by_cases h2 : env.windowThreadId hWnd = 0
    · simp [h1, h2]
    by_cases h3 : env.windowProcessId hWnd = env.GetCurrentProcessId
    swap
    · simp [h1, h2, h3]
    by_cases h4 : (GetClassName env hWnd 32).1 = 0
    · simp [h1, h2, h3, h4]
    by_cases h5 : wcsicmp (GetClassName env hWnd 32).2 (L "Shell_TrayWnd") = 0
    · exact absurd ⟨h1, ⟨h2, h3⟩, h4, Or.inl h5⟩ hm
    by_cases h6 : wcsicmp (GetClassName env hWnd 32).2 (L "Shell_SecondaryTrayWnd") = 0
    · exact absurd ⟨h1, ⟨h2, h3⟩, h4, Or.inr h6⟩ hm
    · simp [h1, h2, h3, h4, h5, h6]

/-- C5: the hook calls the original entry point with exactly the window and data of
the caller, and returns its result, unless the attribute is `WCA_ACCENT_POLICY`, the
window belongs to the current process and its class name is `Shell_TrayWnd` or
`Shell_SecondaryTrayWnd`; when all three hold, and only then, the call goes to
`AdjustTaskbarStyle(hWnd)`. -/
theorem SetWindowCompositionAttribute_Hook_spec (env : Env) (w : World) (hWnd : HWND)
    (pAttrData : WINDOWCOMPOSITIONATTRIBDATA) :
    (¬ hookMatches env hWnd pAttrData →
      SetWindowCompositionAttribute_Hook env w hWnd pAttrData =
        ({ w with calls := w.calls ++ [(hWnd, pAttrData)] },
          env.SetWindowCompositionAttribute_Result hWnd pAttrData)) ∧
    (hookMatches env hWnd pAttrData →
      SetWindowCompositionAttribute_Hook env w hWnd pAttrData =
        AdjustTaskbarStyle env w hWnd) := by
  rw [Hook_eq]
  constructor
  · intro h
    rw [if_neg h]
    rfl
  · intro h
    rw [if_pos h]

/-- C5, at a concrete desktop: an accent-policy call for a window of another
process (window 20) is passed through as it is, and the same call for the taskbar
(window 10) goes to `AdjustTaskbarStyle`. -/
theorem SetWindowCompositionAttribute_Hook_spec_witness :
    SetWindowCompositionAttribute_Hook Env.desktop World.initial 20
        ⟨WCA_ACCENT_POLICY, PvData.policy ⟨ACCENT_DISABLED, 0, 7, 0⟩, 16⟩ =
      ({ World.initial with calls :=
          [(20, ⟨WCA_ACCENT_POLICY, PvData.policy ⟨ACCENT_DISABLED, 0, 7, 0⟩, 16⟩)] },
        true) ∧
    SetWindowCompositionAttribute_Hook Env.desktop World.initial 10
        ⟨WCA_ACCENT_POLICY, PvData.policy ⟨ACCENT_DISABLED, 0, 7, 0⟩, 16⟩ =
      AdjustTaskbarStyle Env.desktop World.initial 10 :=
  ⟨(SetWindowCompositionAttribute_Hook_spec Env.desktop World.initial 20
      ⟨WCA_ACCENT_POLICY, PvData.policy ⟨ACCENT_DISABLED, 0, 7, 0⟩, 16⟩).1 (by decide),
    (SetWindowCompositionAttribute_Hook_spec Env.desktop World.initial 10
      ⟨WCA_ACCENT_POLICY, PvData.policy ⟨ACCENT_DISABLED, 0, 7, 0⟩, 16⟩).2 (by decide)⟩

/-! ## Theorems: style application -/

/-- What `AdjustTaskbarStyle` does to the world, field by field. -/
theorem AdjustTaskbarStyle_fst (env : Env) (w : World) (hWnd : HWND) :
    (AdjustTaskbarStyle env w hWnd).1 =
      { w with
        g_winEventHookThread :=
          if w.g_settings.onlyWhenMaximized = true ∧ w.g_winEventHookThread = 0 then
            env.CreateThread
          else w.g_winEventHookThread,
        liveThreads :=
          if w.g_settings.onlyWhenMaximized = true ∧ w.g_winEventHookThread = 0 ∧
              env.CreateThread ≠ 0 then
            w.liveThreads ++ [env.CreateThread]
          else w.liveThreads,
        calls := w.calls ++ [(hWnd,
          if w.g_settings.onlyWhenMaximized = true ∧
              DoesMonitorHaveMaximizedWindow env (env.MonitorFromWindow hWnd) hWnd = false then
            resetData
          else styleData env w.g_settings)] } := by
  unfold AdjustTaskbarStyle
  cases hO : w.g_settings.onlyWhenMaximized
  · simp [SetTaskbarStyle_eq, styleData, sizeof_ACCENTPOLICY]
  · by_cases hT : w.g_winEventHookThread = 0 <;>
      by_cases hC : env.CreateThread = 0 <;>
      cases hM : DoesMonitorHaveMaximizedWindow env (env.MonitorFromWindow hWnd) hWnd <;>
      simp [hT, hC, hO, hM, SetTaskbarStyle_eq, ResetTaskbarStyle_eq, styleData, resetData,
        sizeof_ACCENTPOLICY]

theorem AdjustTaskbarStyle_snd (env : Env) (w : World) (hWnd : HWND) :
    (AdjustTaskbarStyle env w hWnd).2 =
      env.SetWindowCompositionAttribute_Result hWnd
        (if w.g_settings.onlyWhenMaximized = true ∧
            DoesMonitorHaveMaximizedWindow env (env.MonitorFromWindow hWnd) hWnd = false then
          resetData
        else styleData env w.g_settings) := by
  unfold AdjustTaskbarStyle
  cases hO : w.g_settings.onlyWhenMaximized
  · simp [SetTaskbarStyle_eq, styleData, sizeof_ACCENTPOLICY]
  · by_cases hT : w.g_winEventHookThread = 0 <;>
      cases hM : DoesMonitorHaveMaximizedWindow env (env.MonitorFromWindow hWnd) hWnd <;>
      simp [hT, hO, hM, SetTaskbarStyle_eq, ResetTaskbarStyle_eq, styleData, resetData,
        sizeof_ACCENTPOLICY]

/-- C6: on a matched call the policy of the caller is never forwarded. Two matched
calls on the same window in the same snapshot and world give the same world and
the same return value whatever their buffers hold, and the one call made to the
original entry point is the call of `SetTaskbarStyle` (the resolved style) or the
call of `ResetTaskbarStyle` (the reset policy). -/
theorem SetWindowCompositionAttribute_Hook_ignores_caller (env : Env) (w : World)
    (hWnd : HWND) (data1 data2 : WINDOWCOMPOSITIONATTRIBDATA)
    (h1 : hookMatches env hWnd data1) (h2 : hookMatches env hWnd data2) :
    SetWindowCompositionAttribute_Hook env w hWnd data1 =
      SetWindowCompositionAttribute_Hook env w hWnd data2 ∧
    (((SetWindowCompositionAttribute_Hook env w hWnd data1).1.calls =
          (SetTaskbarStyle env w hWnd).1.calls ∧
        (SetWindowCompositionAttribute_Hook env w hWnd data1).2 =
          (SetTaskbarStyle env w hWnd).2) ∨
      ((SetWindowCompositionAttribute_Hook env w hWnd data1).1.calls =
          (ResetTaskbarStyle env w hWnd).1.calls ∧
        (SetWindowCompositionAttribute_Hook env w hWnd data1).2 =
          (ResetTaskbarStyle env w hWnd).2)) := by
  rw [Hook_eq, Hook_eq, if_pos h1, if_pos h2]
  refine ⟨rfl, ?_⟩
  rw [AdjustTaskbarStyle_fst, AdjustTaskbarStyle_snd]
  by_cases hc : w.g_settings.onlyWhenMaximized = true ∧
      DoesMonitorHaveMaximizedWindow env (env.MonitorFromWindow hWnd) hWnd = false
  · right
    rw [if_pos hc]
    exact ⟨rfl, rfl⟩
  · left
    rw [if_neg hc]
    exact ⟨rfl, rfl⟩

/-- C6, at a concrete desktop: the shell asks for a disabled accent on the taskbar,
once with color 7 and once with color 8 in its buffer; both calls do the same. -/
theorem SetWindowCompositionAttribute_Hook_ignores_caller_witness :
    SetWindowCompositionAttribute_Hook Env.desktop World.initial 10
        ⟨WCA_ACCENT_POLICY, PvData.policy ⟨ACCENT_DISABLED, 0, 7, 0⟩, 16⟩ =
      SetWindowCompositionAttribute_Hook Env.desktop World.initial 10
        ⟨WCA_ACCENT_POLICY, PvData.policy ⟨ACCENT_ENABLE_GRADIENT, 2, 8, 0⟩, 16⟩ :=
  (SetWindowCompositionAttribute_Hook_ignores_caller Env.desktop World.initial 10
    ⟨WCA_ACCENT_POLICY, PvData.policy ⟨ACCENT_DISABLED, 0, 7, 0⟩, 16⟩
    ⟨WCA_ACCENT_POLICY, PvData.policy ⟨ACCENT_ENABLE_GRADIENT, 2, 8, 0⟩, 16⟩
    (by decide) (by decide)).1

theorem foldl_AdjustTaskbarStyle_reset (env : Env)
    (hno : ∀ D T, DoesMonitorHaveMaximizedWindow env D T = false)
    (hs : List HWND) (w : World) (hO : w.g_settings.onlyWhenMaximized = true) :
    (hs.foldl (fun w h => (AdjustTaskbarStyle env w h).1) w).calls =
      w.calls ++ hs.map (fun h => (h, resetData)) := by
  induction hs generalizing w with
  | nil => simp
  | cons h rest ih =>
    rw [List.foldl_cons, ih]
    · rw [AdjustTaskbarStyle_fst]
      simp [hO, hno]
    · rw [AdjustTaskbarStyle_fst]
      exact hO

/-- C7: with `onlyWhenMaximized` off, `AdjustTaskbarStyle` is `SetTaskbarStyle`,
whatever windows exist, and the listener thread is not started. With it on, the
resolved style is applied when `DoesMonitorHaveMaximizedWindow` holds for the
nearest display of the surface, and the reset policy is sent otherwise. Hence with
it on and no occupying window on any display, `AdjustAllTaskbarStyles` sends the
reset policy, and nothing else, to the primary surface and to every secondary one. -/
theorem AdjustTaskbarStyle_spec (env : Env) (w : World) (hWnd : HWND) :
    (w.g_settings.onlyWhenMaximized = false →
      AdjustTaskbarStyle env w hWnd = SetTaskbarStyle env w hWnd ∧
      (AdjustTaskbarStyle env w hWnd).1.g_winEventHookThread = w.g_winEventHookThread ∧
      (AdjustTaskbarStyle env w hWnd).1.liveThreads = w.liveThreads) ∧
    (w.g_settings.onlyWhenMaximized = true →
      DoesMonitorHaveMaximizedWindow env (env.MonitorFromWindow hWnd) hWnd = true →
      (AdjustTaskbarStyle env w hWnd).1.calls = (SetTaskbarStyle env w hWnd).1.calls ∧
      (AdjustTaskbarStyle env w hWnd).2 = (SetTaskbarStyle env w hWnd).2) ∧
    (w.g_settings.onlyWhenMaximized = true →
      DoesMonitorHaveMaximizedWindow env (env.MonitorFromWindow hWnd) hWnd = false →
      (AdjustTaskbarStyle env w hWnd).1.calls = (ResetTaskbarStyle env w hWnd).1.calls ∧
      (AdjustTaskbarStyle env w hWnd).2 = (ResetTaskbarStyle env w hWnd).2) ∧
    (w.g_settings.onlyWhenMaximized = true →
      (∀ D T, ∀ h ∈ env.topLevelWindows,
        ¬ (eligibleWindow env D T h ∧ occupyingWindow env D h)) →
      (AdjustAllTaskbarStyles env w).calls =
        w.calls ++
          ((if (FindTaskbarWindows env).1 ≠ 0 then [(FindTaskbarWindows env).1] else []) ++
            (FindTaskbarWindows env).2).map (fun h => (h, resetData))) := by
  refine ⟨?_, ?_, ?_, ?_⟩
  · intro hO
    refine ⟨?_, ?_, ?_⟩
    · unfold AdjustTaskbarStyle
      simp [hO]
    · rw [AdjustTaskbarStyle_fst]
      simp [hO]
    · rw [AdjustTaskbarStyle_fst]
      simp [hO]
  · intro hO hM
    rw [AdjustTaskbarStyle_fst, AdjustTaskbarStyle_snd]
    simp only [hM, hO]
    exact ⟨rfl, rfl⟩
  · intro hO hM
    rw [AdjustTaskbarStyle_fst, AdjustTaskbarStyle_snd]
    simp only [hM, hO]
    exact ⟨rfl, rfl⟩
  · intro hO hnone
    have hno : ∀ D T, DoesMonitorHaveMaximizedWindow env D T = false := by
      intro D T
      cases hres : DoesMonitorHaveMaximizedWindow env D T
      · rfl
      · obtain ⟨h, hmem, hh⟩ := (DoesMonitorHaveMaximizedWindow_iff_exists env D T).1 hres
        exact absurd hh (hnone D T h hmem)
    unfold AdjustAllTaskbarStyles
    by_cases hp : (FindTaskbarWindows env).1 = 0
    · simp only [hp, bne_self_eq_false, Bool.false_eq_true, if_false, ne_eq, not_true_eq_false,
        List.nil_append]
      exact foldl_AdjustTaskbarStyle_reset env hno _ w hO
    · have hp2 : ((FindTaskbarWindows env).1 != 0) = true := by simpa using hp
      simp only [hp2, if_true, ne_eq, hp, not_false_eq_true, List.singleton_append,
        List.map_cons]
      rw [foldl_AdjustTaskbarStyle_reset env hno]
      · rw [AdjustTaskbarStyle_fst]
        simp [hO, hno]
      · rw [AdjustTaskbarStyle_fst]
        exact hO

/-- C7, at a concrete desktop: with `onlyWhenMaximized` off the taskbar gets the
style although nothing but the taskbar is on the display and no thread is started;
with it on and only the taskbar there, the taskbar gets the reset policy. -/
theorem AdjustTaskbarStyle_spec_witness :
    AdjustTaskbarStyle { Env.desktop with topLevelWindows := [10] }
        { World.initial with g_settings := ⟨⟨BackgroundStyle.blur, 5, false⟩, false, none⟩ }
        10 =
      SetTaskbarStyle { Env.desktop with topLevelWindows := [10] }
        { World.initial with g_settings := ⟨⟨BackgroundStyle.blur, 5, false⟩, false, none⟩ }
        10 ∧
    (AdjustTaskbarStyle { Env.desktop with topLevelWindows := [10] }
        { World.initial with g_settings := ⟨⟨BackgroundStyle.blur, 5, false⟩, true, none⟩ }
        10).1.calls =
      (ResetTaskbarStyle { Env.desktop with topLevelWindows := [10] }
        { World.initial with g_settings := ⟨⟨BackgroundStyle.blur, 5, false⟩, true, none⟩ }
        10).1.calls :=
  ⟨((AdjustTaskbarStyle_spec { Env.desktop with topLevelWindows := [10] }
      { World.initial with g_settings := ⟨⟨BackgroundStyle.blur, 5, false⟩, false, none⟩ }
      10).1 rfl).1,
    ((AdjustTaskbarStyle_spec { Env.desktop with topLevelWindows := [10] }
      { World.initial with g_settings := ⟨⟨BackgroundStyle.blur, 5, false⟩, true, none⟩ }
      10).2.2.1 rfl (by decide)).1⟩

/-! ## Theorems: event monitor and debouncer -/

theorem mem_setInsert (s : List Nat) (x y : Nat) : y ∈ setInsert s x ↔ y ∈ s ∨ y = x := by
  unfold setInsert
  by_cases h : x ∈ s
  · simp only [h, if_true]
    constructor
    · exact Or.inl
    · rintro (hy | hy)
      · exact hy
      · exact hy ▸ h
  · simp [h]

theorem nodup_setInsert (s : List Nat) (x : Nat) (hs : s.Nodup) : (setInsert s x).Nodup := by
  unfold setInsert
  by_cases h : x ∈ s
  · simpa [h] using hs
  · simp only [h, if_false]
    exact List.Nodup.append hs (List.nodup_singleton x) (by simpa using h)

/-- The pending set after a run of events, as a fold of `insert`. -/
theorem mem_foldl_setInsert (events : List (Env × WinEvent)) (s : List Nat) (m : Nat) :
    m ∈ events.foldl (fun s e => setInsert s (e.1.MonitorFromWindow e.2.hWnd)) s ↔
      m ∈ s ∨ ∃ e ∈ events, e.1.MonitorFromWindow e.2.hWnd = m := by
  induction events generalizing s with
  | nil => simp
  | cons e rest ih =>
    rw [List.foldl_cons, ih, mem_setInsert]
    constructor
    · rintro ((h | h) | ⟨x, hx, hm⟩)
      · exact Or.inl h
      · exact Or.inr ⟨e, List.mem_cons_self _ _, h.symm⟩
      · exact Or.inr ⟨x, List.mem_cons_of_mem _ hx, hm⟩
    · rintro (h | ⟨x, hx, hm⟩)
      · exact Or.inl (Or.inl h)
      · rcases List.mem_cons.1 hx with hx | hx
        · subst hx
          exact Or.inl (Or.inr hm.symm)
        · exact Or.inr ⟨x, hx, hm⟩

theorem nodup_foldl_setInsert (events : List (Env × WinEvent)) (s : List Nat)
    (hs : s.Nodup) :
    (events.foldl (fun s e => setInsert s (e.1.MonitorFromWindow e.2.hWnd)) s).Nodup := by
  induction events generalizing s with
  | nil => simpa using hs
  | cons e rest ih =>
    rw [List.foldl_cons]
    exact ih _ (nodup_setInsert s _ hs)

/-- While the timer is recorded as armed, qualifying events only grow the pending set. -/
theorem deliverEvents_armed (events : List (Env × WinEvent)) (w : World)
    (hq : ∀ e ∈ events, WinEventProc_qualifies e.1 e.2 = true)
    (ht : w.g_pendingMonitorsTimer ≠ 0) :
    deliverEvents events w =
      { w with g_pendingMonitors :=
          (events.foldl (fun s e => setInsert s (e.1.MonitorFromWindow e.2.hWnd))
            w.g_pendingMonitors) } := by
  unfold deliverEvents
  induction events generalizing w with
  | nil => rfl
  | cons e rest ih =>
    have hqe := hq e (List.mem_cons_self _ _)
    have hstep : WinEventProc e.1 e.2 w =
        { w with g_pendingMonitors :=
            setInsert w.g_pendingMonitors (e.1.MonitorFromWindow e.2.hWnd) } := by
      unfold WinEventProc
      simp [hqe, ht]
    rw [List.foldl_cons, hstep]
    exact ih _ (fun x hx => hq x (List.mem_cons_of_mem _ hx)) ht

/-- The first qualifying event in the idle state arms the timer. -/
theorem WinEventProc_idle (env : Env) (ev : WinEvent) (w : World)
    (hq : WinEventProc_qualifies env ev = true) (ht : w.g_pendingMonitorsTimer = 0) :
    WinEventProc env ev w =
      { w with
        g_pendingMonitors :=
          setInsert w.g_pendingMonitors (env.MonitorFromWindow ev.hWnd),
        g_pendingMonitorsTimer := env.SetTimer,
        timers := if env.SetTimer != 0 then w.timers ++ [env.SetTimer] else w.timers } := by
  unfold WinEventProc
  simp [hq, ht]

/-- A surface found for a monitor is on that monitor. -/
theorem TimerProc_hMMTaskbarWnd_monitor (env : Env) (hTaskbarWnd : HWND)
    (secondary : List HWND) (m : HMONITOR)
    (h : TimerProc_hMMTaskbarWnd env hTaskbarWnd secondary m ≠ 0) :
    env.MonitorFromWindow (TimerProc_hMMTaskbarWnd env hTaskbarWnd secondary m) = m := by
  unfold TimerProc_hMMTaskbarWnd at h ⊢
  by_cases hp : (hTaskbarWnd != 0 && env.MonitorFromWindow hTaskbarWnd == m) = true
  · rw [if_pos hp]
    simp only [Bool.and_eq_true, beq_iff_eq] at hp
    exact hp.2
  · rw [if_neg hp] at h ⊢
    cases hf : secondary.find? (fun h => env.MonitorFromWindow h == m) with
    | none =>
      rw [hf] at h
      exact absurd rfl h
    | some x =>
      have := List.find?_some hf
      simpa using this

theorem TimerProc_forMonitor_eq (env : Env) (hTaskbarWnd : HWND) (secondary : List HWND)
    (w : World) (m : HMONITOR) :
    TimerProc_forMonitor env hTaskbarWnd secondary w m =
      { w with calls := w.calls ++
          (TimerProc_call env w.g_settings hTaskbarWnd secondary m).toList } := by
  unfold TimerProc_forMonitor TimerProc_call
  by_cases h0 : TimerProc_hMMTaskbarWnd env hTaskbarWnd secondary m = 0
  · simp [h0]
  · cases hM : DoesMonitorHaveMaximizedWindow env m
        (TimerProc_hMMTaskbarWnd env hTaskbarWnd secondary m) <;>
      simp [h0, hM, SetTaskbarStyle_eq, ResetTaskbarStyle_eq, styleData, resetData,
        sizeof_ACCENTPOLICY]

theorem foldl_TimerProc_forMonitor (env : Env) (hTaskbarWnd : HWND) (secondary : List HWND)
    (ms : List HMONITOR) (w : World) :
    ms.foldl (TimerProc_forMonitor env hTaskbarWnd secondary) w =
      { w with calls := w.calls ++
          ms.filterMap (TimerProc_call env w.g_settings hTaskbarWnd secondary) } := by
  induction ms generalizing w with
  | nil => simp
  | cons m rest ih =>
    rw [List.foldl_cons, ih, TimerProc_forMonitor_eq]
    cases hc : TimerProc_call env w.g_settings hTaskbarWnd secondary m <;>
      simp [List.filterMap_cons, hc]

theorem TimerProc_eq (env : Env) (w : World) :
    TimerProc env w =
      { w with
        timers := w.timers.filter (fun t => t != w.g_pendingMonitorsTimer),
        g_pendingMonitorsTimer := 0,
        g_pendingMonitors := [],
        calls := w.calls ++
          w.g_pendingMonitors.filterMap
            (TimerProc_call env w.g_settings (FindTaskbarWindows env).1
              (FindTaskbarWindows env).2) } := by
  unfold TimerProc
  simp only [foldl_TimerProc_forMonitor]

/-- C8: from the idle state, N qualifying window events delivered before the timer
fires arm exactly one timer: the first event arms it and after every later event
the one timer and its recorded id are unchanged; the events make no call. The
pending set is then exactly the set of displays of those events, each once. The
timer callback makes one pass over that set: the calls it adds are the calls for
the pending displays, in order, one for each display on which a taskbar surface is
found, and every such call goes to a surface on its display. Afterwards the state
is idle again: no pending display, no timer recorded, no timer set. -/
theorem debounce_coalesces (first : Env × WinEvent) (events : List (Env × WinEvent))
    (w : World) (envT : Env)
    (hp : w.g_pendingMonitors = []) (ht : w.g_pendingMonitorsTimer = 0)
    (htm : w.timers = [])
    (hq : ∀ e ∈ first :: events, WinEventProc_qualifies e.1 e.2 = true)
    (harm : first.1.SetTimer ≠ 0) :
    (∀ k, (deliverEvents (first :: events.take k) w).timers = [first.1.SetTimer] ∧
      (deliverEvents (first :: events.take k) w).g_pendingMonitorsTimer = first.1.SetTimer) ∧
    (∀ m, m ∈ (deliverEvents (first :: events) w).g_pendingMonitors ↔
      ∃ e ∈ first :: events, e.1.MonitorFromWindow e.2.hWnd = m) ∧
    (deliverEvents (first :: events) w).g_pendingMonitors.Nodup ∧
    (deliverEvents (first :: events) w).calls = w.calls ∧
    (TimerProc envT (deliverEvents (first :: events) w)).calls =
      w.calls ++ (deliverEvents (first :: events) w).g_pendingMonitors.filterMap
        (TimerProc_call envT w.g_settings (FindTaskbarWindows envT).1
          (FindTaskbarWindows envT).2) ∧
    (∀ m c, TimerProc_call envT w.g_settings (FindTaskbarWindows envT).1
        (FindTaskbarWindows envT).2 m = some c → envT.MonitorFromWindow c.1 = m) ∧
    (TimerProc envT (deliverEvents (first :: events) w)).g_pendingMonitors = [] ∧
    (TimerProc envT (deliverEvents (first :: events) w)).g_pendingMonitorsTimer = 0 ∧
    (TimerProc envT (deliverEvents (first :: events) w)).timers = [] := by
  have hfirst := WinEventProc_idle first.1 first.2 w (hq first (List.mem_cons_self _ _)) ht
  have hne : (first.1.SetTimer != 0) = true := by simpa using harm
  rw [hne, if_pos rfl, htm, hp] at hfirst
  have hdel : ∀ evs : List (Env × WinEvent),
      (∀ e ∈ evs, WinEventProc_qualifies e.1 e.2 = true) →
      deliverEvents (first :: evs) w =
        { w with
          g_pendingMonitors :=
            (evs.foldl (fun s e => setInsert s (e.1.MonitorFromWindow e.2.hWnd))
              (setInsert [] (first.1.MonitorFromWindow first.2.hWnd))),
          g_pendingMonitorsTimer := first.1.SetTimer,
          timers := [] ++ [first.1.SetTimer] } := by
    intro evs hevs
    have hcons : deliverEvents (first :: evs) w =
        deliverEvents evs (WinEventProc first.1 first.2 w) := rfl
    rw [hcons, hfirst, deliverEvents_armed evs _ hevs harm]
  have hall := hdel events (fun e he => hq e (List.mem_cons_of_mem _ he))
  refine ⟨?_, ?_, ?_, ?_, ?_, ?_, ?_, ?_, ?_⟩
  · intro k
    rw [hdel (events.take k)
      (fun e he => hq e (List.mem_cons_of_mem _ (List.mem_of_mem_take he)))]
    exact ⟨rfl, rfl⟩
  · intro m
    rw [hall]
    simp only [mem_foldl_setInsert, mem_setInsert, List.mem_cons, List.not_mem_nil, false_or]
    constructor
    · rintro (h | ⟨e, he, hm⟩)
      · exact ⟨first, Or.inl rfl, h.symm⟩
      · exact ⟨e, Or.inr he, hm⟩
    · rintro ⟨e, he | he, hm⟩
      · subst he
        exact Or.inl hm.symm
      · exact Or.inr ⟨e, he, hm⟩
  · rw [hall]
    exact nodup_foldl_setInsert _ _ (nodup_setInsert [] _ List.nodup_nil)
  · rw [hall]
  · rw [TimerProc_eq, hall]
  · intro m c hc
    unfold TimerProc_call at hc
    by_cases h0 : TimerProc_hMMTaskbarWnd envT (FindTaskbarWindows envT).1
        (FindTaskbarWindows envT).2 m = 0
    · rw [if_pos h0] at hc
      cases hc
    · rw [if_neg h0] at hc
      cases hc
      exact TimerProc_hMMTaskbarWnd_monitor envT _ _ m h0
  · rw [TimerProc_eq]
  · rw [TimerProc_eq]
  · rw [TimerProc_eq, hall]
    simp

/-- C8, at a concrete desktop: two events on display 1 (windows 20 and 30) arm one
timer and leave one pending display; the timer callback then styles the taskbar
once and the state is idle again. -/
theorem debounce_coalesces_witness :
    (deliverEvents [(Env.desktop, ⟨0x8002, 20, 0, 0⟩), (Env.desktop, ⟨0x800B, 30, 0, 0⟩)]
        World.initial).g_pendingMonitors.Nodup ∧
    (TimerProc Env.desktop
      (deliverEvents [(Env.desktop, ⟨0x8002, 20, 0, 0⟩), (Env.desktop, ⟨0x800B, 30, 0, 0⟩)]
        World.initial)).timers = [] ∧
    (deliverEvents [(Env.desktop, ⟨0x8002, 20, 0, 0⟩), (Env.desktop, ⟨0x800B, 30, 0, 0⟩)]
        World.initial).timers = [77] ∧
    (TimerProc Env.desktop
      (deliverEvents [(Env.desktop, ⟨0x8002, 20, 0, 0⟩), (Env.desktop, ⟨0x800B, 30, 0, 0⟩)]
        World.initial)).calls =
      [(10, ⟨WCA_ACCENT_POLICY, PvData.policy ⟨ACCENT_ENABLE_BLURBEHIND, 0, 0, 0⟩, 16⟩)] :=
  ⟨(debounce_coalesces (Env.desktop, ⟨0x8002, 20, 0, 0⟩) [(Env.desktop, ⟨0x800B, 30, 0, 0⟩)]
      World.initial Env.desktop rfl rfl rfl (by decide) (by decide)).2.2.1,
    (debounce_coalesces (Env.desktop, ⟨0x8002, 20, 0, 0⟩) [(Env.desktop, ⟨0x800B, 30, 0, 0⟩)]
      World.initial Env.desktop rfl rfl rfl (by decide) (by decide)).2.2.2.2.2.2.2.2,
    by decide, by decide⟩

/-! ## Theorems: settings -/

/-- C9 (the code departs from it): `LoadSettings` never reads the setting
`styleForDarkMode.color.accentColor`. Its result is the same whatever that setting
holds, and the `accentColor` field of the dark-mode style is the value of an
uninitialised local. At the failing input (dark-mode style in use, the option
enabled, dark theme active, accent color (0, 120, 215) available) the field is
false and `SetTaskbarStyle` sends the configured color 0x80277FFF, not the accent
color. -/
theorem LoadSettings_darkMode_accentColor_unread :
    (∀ (env : Env) (w : World) (v : Int),
      LoadSettings
          { env with Wh_GetIntSetting := fun name =>
              if name = "styleForDarkMode.color.accentColor" then v
              else env.Wh_GetIntSetting name } w =
        LoadSettings env w) ∧
    (∀ (env : Env) (w : World) (d : TaskbarStyle),
      (LoadSettings env w).g_settings.darkModeStyle = some d →
        d.accentColor = env.uninitialized_accentColor) ∧
    Env.darkAccent.Wh_GetIntSetting "styleForDarkMode.color.accentColor" = 1 ∧
    (LoadSettings Env.darkAccent World.initial).g_settings.darkModeStyle =
      some ⟨BackgroundStyle.blur, 0x80277FFF, false⟩ ∧
    (SetTaskbarStyle Env.darkAccent (LoadSettings Env.darkAccent World.initial) 10).1.calls =
      [(10, ⟨WCA_ACCENT_POLICY,
        PvData.policy ⟨ACCENT_ENABLE_BLURBEHIND, 0, 0x80277FFF, 0⟩, 16⟩)] := by
  refine ⟨?_, ?_, by decide, by decide, by decide⟩
  · intro env w v
    simp [LoadSettings]
  · intro env w d hd
    simp only [LoadSettings] at hd
    split at hd
    · cases hd
      rfl
    · cases hd

/-! ## Theorems: listener lifecycle -/

theorem listenerOk_of_fields (w w2 : World)
    (hs : w2.g_settings = w.g_settings)
    (ht : w2.g_winEventHookThread = w.g_winEventHookThread)
    (hl : w2.liveThreads = w.liveThreads) (h : listenerOk w) : listenerOk w2 := by
  unfold listenerOk at h ⊢
  rw [hs, ht, hl]
  exact h

theorem listenerOk_AdjustTaskbarStyle (env : Env) (w : World) (hWnd : HWND)
    (h : listenerOk w) : listenerOk (AdjustTaskbarStyle env w hWnd).1 := by
  rw [AdjustTaskbarStyle_fst]
  unfold listenerOk at h ⊢
  obtain ⟨h0, h1, h2⟩ := h
  cases hO : w.g_settings.onlyWhenMaximized
  · have hz := h2 hO
    simp [hO, hz, h0 hz]
  · by_cases hT : w.g_winEventHookThread = 0
    · by_cases hC : env.CreateThread = 0
      · simp [hO, hT, hC, h0 hT]
      · simp [hO, hT, hC, h0 hT]
    · simp [hO, hT, h1 hT]

theorem listenerOk_foldl_AdjustTaskbarStyle (env : Env) (hs : List HWND) (w : World)
    (h : listenerOk w) :
    listenerOk (hs.foldl (fun w h => (AdjustTaskbarStyle env w h).1) w) := by
  induction hs generalizing w with
  | nil => exact h
  | cons x rest ih =>
    rw [List.foldl_cons]
    exact ih _ (listenerOk_AdjustTaskbarStyle env w x h)

theorem listenerOk_AdjustAllTaskbarStyles (env : Env) (w : World) (h : listenerOk w) :
    listenerOk (AdjustAllTaskbarStyles env w) := by
  unfold AdjustAllTaskbarStyles
  apply listenerOk_foldl_AdjustTaskbarStyle
  split
  · exact listenerOk_AdjustTaskbarStyle env w _ h
  · exact h

theorem foldl_ResetTaskbarStyle_eq (env : Env) (hs : List HWND) (w : World) :
    hs.foldl (fun w h => (ResetTaskbarStyle env w h).1) w =
      { w with calls := w.calls ++ hs.map (fun h => (h, resetData)) } := by
  induction hs generalizing w with
  | nil => simp
  | cons x rest ih =>
    rw [List.foldl_cons, ih, ResetTaskbarStyle_eq]
    simp [resetData, sizeof_ACCENTPOLICY]

/-- After the stop sequence the handle is null and no listener thread is alive. -/
theorem listenerOk_join (w : World) (h : listenerOk w) :
    ({ joinWinEventHookThread w with g_winEventHookThread := 0 } : World).liveThreads = [] := by
  unfold listenerOk at h
  unfold joinWinEventHookThread
  by_cases hT : w.g_winEventHookThread = 0
  · simp [h.1 hT]
  · simp [h.2.1 hT]

theorem Wh_ModUninit_eq (env : Env) (w : World) :
    Wh_ModUninit env w =
      { w with
        g_winEventHookThread := 0,
        liveThreads :=
          if w.g_winEventHookThread = 0 then w.liveThreads
          else w.liveThreads.filter (fun h => h != w.g_winEventHookThread),
        timers := if w.g_winEventHookThread = 0 then w.timers else [],
        calls := w.calls ++
          ((if (FindTaskbarWindows env).1 ≠ 0 then [(FindTaskbarWindows env).1] else []) ++
            (FindTaskbarWindows env).2).map (fun h => (h, resetData)) } := by
  unfold Wh_ModUninit
  rw [foldl_ResetTaskbarStyle_eq]
  by_cases hT : w.g_winEventHookThread = 0 <;>
    by_cases hp : (FindTaskbarWindows env).1 = 0 <;>
    simp [hT, hp, ResetTaskbarStyle_eq, joinWinEventHookThread, resetData, sizeof_ACCENTPOLICY]

theorem listenerOk_Wh_ModUninit (env : Env) (w : World) (h : listenerOk w) :
    listenerOk (Wh_ModUninit env w) := by
  rw [Wh_ModUninit_eq]
  unfold listenerOk at h ⊢
  by_cases hT : w.g_winEventHookThread = 0
  · simp [hT, h.1 hT]
  · simp [hT, h.2.1 hT]

theorem stopIfNotNeeded_eq (w : World) :
    (if !w.g_settings.onlyWhenMaximized then
        if w.g_winEventHookThread != 0 then
          { joinWinEventHookThread w with g_winEventHookThread := 0 }
        else w
      else w) =
      { w with
        g_winEventHookThread :=
          if w.g_settings.onlyWhenMaximized = false then 0 else w.g_winEventHookThread,
        liveThreads :=
          if w.g_settings.onlyWhenMaximized = false ∧ w.g_winEventHookThread ≠ 0 then
            w.liveThreads.filter (fun h => h != w.g_winEventHookThread)
          else w.liveThreads,
        timers :=
          if w.g_settings.onlyWhenMaximized = false ∧ w.g_winEventHookThread ≠ 0 then []
          else w.timers } := by
  obtain ⟨⟨st, o, d⟩, t, pm, pt, lt, tm, cs, hk⟩ := w
  cases o
  · by_cases hT : t = 0
    · simp [hT]
    · simp [hT, joinWinEventHookThread]
  · simp

theorem Wh_ModSettingsChanged_reload_eq (env : Env) (w : World) :
    Wh_ModSettingsChanged_reload env w =
      { w with
        g_settings := (LoadSettings env w).g_settings,
        g_winEventHookThread :=
          if (LoadSettings env w).g_settings.onlyWhenMaximized = false then 0
          else w.g_winEventHookThread,
        liveThreads :=
          if (LoadSettings env w).g_settings.onlyWhenMaximized = false ∧
              w.g_winEventHookThread ≠ 0 then
            w.liveThreads.filter (fun h => h != w.g_winEventHookThread)
          else w.liveThreads,
        timers :=
          if (LoadSettings env w).g_settings.onlyWhenMaximized = false ∧
              w.g_winEventHookThread ≠ 0 then []
          else w.timers } := by
  have h := stopIfNotNeeded_eq (LoadSettings env w)
  exact h

theorem listenerOk_reload (env : Env) (w : World) (h : listenerOk w) :
    listenerOk (Wh_ModSettingsChanged_reload env w) := by
  rw [Wh_ModSettingsChanged_reload_eq]
  unfold listenerOk at h ⊢
  obtain ⟨h0, h1, _⟩ := h
  cases hO : (LoadSettings env w).g_settings.onlyWhenMaximized
  · by_cases hT : w.g_winEventHookThread = 0
    · simp [hT, h0 hT]
    · simp [hT, h1 hT]
  · by_cases hT : w.g_winEventHookThread = 0
    · simp [hT, h0 hT]
    · simp [hT, h1 hT]

theorem listenerOk_run (env : Env) (w : World) (op : ModOp) (h : listenerOk w) :
    listenerOk (op.run env w) := by
  cases op with
  | afterInit =>
    show listenerOk (Wh_ModAfterInit env w)
    unfold Wh_ModAfterInit
    split
    · exact listenerOk_AdjustAllTaskbarStyles env w h
    · exact h
  | hookCall hWnd pAttrData =>
    show listenerOk (SetWindowCompositionAttribute_Hook env w hWnd pAttrData).1
    rw [Hook_eq]
    split
    · exact listenerOk_AdjustTaskbarStyle env w hWnd h
    · exact listenerOk_of_fields w _ rfl rfl rfl h
  | settingsChanged =>
    exact listenerOk_AdjustAllTaskbarStyles env _ (listenerOk_reload env w h)
  | uninit => exact listenerOk_Wh_ModUninit env w h
  | winEvent ev =>
    show listenerOk (WinEventProc env ev w)
    cases hq : WinEventProc_qualifies env ev
    · have he : WinEventProc env ev w = w := by
        unfold WinEventProc
        simp [hq]
      rw [he]
      exact h
    · by_cases ht : w.g_pendingMonitorsTimer = 0
      · rw [WinEventProc_idle env ev w hq ht]
        exact listenerOk_of_fields w _ rfl rfl rfl h
      · have he := deliverEvents_armed [(env, ev)] w (by simpa using hq) ht
        have hd : deliverEvents [(env, ev)] w = WinEventProc env ev w := rfl
        rw [← hd, he]
        exact listenerOk_of_fields w _ rfl rfl rfl h
  | timerFired =>
    show listenerOk (TimerProc env w)
    rw [TimerProc_eq]
    exact listenerOk_of_fields w _ rfl rfl rfl h

theorem listenerOk_Wh_ModInit (env : Env) : listenerOk (Wh_ModInit env World.initial).1 := by
  have hbase : listenerOk (LoadSettings env World.initial) := by
    unfold listenerOk
    exact ⟨fun _ => rfl, fun h => absurd rfl h, fun _ => rfl⟩
  unfold Wh_ModInit
  split
  · exact hbase
  · split
    · exact hbase
    · exact listenerOk_of_fields _ _ rfl rfl rfl hbase

theorem listenerOk_foldl (ops : List (Env × ModOp)) (w : World) (h : listenerOk w) :
    listenerOk (ops.foldl (fun w op => op.2.run op.1 w) w) := by
  induction ops generalizing w with
  | nil => exact h
  | cons op rest ih =>
    rw [List.foldl_cons]
    exact ih _ (listenerOk_run op.1 w op.2 h)

theorem listenerOk_runModule (envInit : Env) (ops : List (Env × ModOp)) :
    listenerOk (runModule envInit ops) :=
  listenerOk_foldl ops _ (listenerOk_Wh_ModInit envInit)

/-- C10: after `Wh_ModInit` and any sequence of module steps (post-init, intercepted
calls, settings changes, unload, and the steps of the listener itself), at most one
listener thread is alive, and with `onlyWhenMaximized` off none is and the handle is
null. In particular, when a settings change turns `onlyWhenMaximized` off, the
listener is stopped and its handle cleared at the point where `Wh_ModSettingsChanged`
goes on to `AdjustAllTaskbarStyles`, before any call is made for a surface, and it
is still stopped afterwards. -/
theorem listener_lifecycle (envInit : Env) (ops : List (Env × ModOp)) :
    (runModule envInit ops).liveThreads.length ≤ 1 ∧
    ((runModule envInit ops).g_settings.onlyWhenMaximized = false →
      (runModule envInit ops).liveThreads = [] ∧
      (runModule envInit ops).g_winEventHookThread = 0) ∧
    (∀ env : Env,
      (LoadSettings env (runModule envInit ops)).g_settings.onlyWhenMaximized = false →
      (Wh_ModSettingsChanged_reload env (runModule envInit ops)).liveThreads = [] ∧
      (Wh_ModSettingsChanged_reload env (runModule envInit ops)).g_winEventHookThread = 0 ∧
      (Wh_ModSettingsChanged_reload env (runModule envInit ops)).calls =
        (runModule envInit ops).calls ∧
      Wh_ModSettingsChanged env (runModule envInit ops) =
        AdjustAllTaskbarStyles env
          (Wh_ModSettingsChanged_reload env (runModule envInit ops)) ∧
      (Wh_ModSettingsChanged env (runModule envInit ops)).liveThreads = [] ∧
      (Wh_ModSettingsChanged env (runModule envInit ops)).g_winEventHookThread = 0) := by
  have hinv := listenerOk_runModule envInit ops
  have key : ∀ w : World, listenerOk w →
      w.liveThreads.length ≤ 1 ∧
      (w.g_settings.onlyWhenMaximized = false →
        w.liveThreads = [] ∧ w.g_winEventHookThread = 0) := by
    intro w hw
    unfold listenerOk at hw
    obtain ⟨h0, h1, h2⟩ := hw
    constructor
    · by_cases hT : w.g_winEventHookThread = 0
      · simp [h0 hT]
      · simp [h1 hT]
    · intro hO
      exact ⟨h0 (h2 hO), h2 hO⟩
  refine ⟨(key _ hinv).1, (key _ hinv).2, ?_⟩
  intro env hO
  have hre := listenerOk_reload env _ hinv
  have hO2 : (Wh_ModSettingsChanged_reload env (runModule envInit ops)).g_settings.onlyWhenMaximized
      = false := by
    rw [Wh_ModSettingsChanged_reload_eq]
    exact hO
  have hafter := listenerOk_AdjustAllTaskbarStyles env _ hre
  have hO3 : (Wh_ModSettingsChanged env (runModule envInit ops)).g_settings.onlyWhenMaximized
      = false := by
    have hset : ∀ (hs : List HWND) (w : World),
        (hs.foldl (fun w h => (AdjustTaskbarStyle env w h).1) w).g_settings = w.g_settings := by
      intro hs
      induction hs with
      | nil => intro w; rfl
      | cons x rest ih =>
        intro w
        rw [List.foldl_cons, ih, AdjustTaskbarStyle_fst]
    unfold Wh_ModSettingsChanged AdjustAllTaskbarStyles
    rw [hset]
    split
    · rw [AdjustTaskbarStyle_fst]
      exact hO2
    · exact hO2
  refine ⟨((key _ hre).2 hO2).1, ((key _ hre).2 hO2).2, ?_, rfl, ?_, ?_⟩
  · rw [Wh_ModSettingsChanged_reload_eq]
  · exact ((key _ hafter).2 hO3).1
  · exact ((key _ hafter).2 hO3).2

/-- C10, at a concrete run: the module starts with `onlyWhenMaximized` on, post-init
starts the listener (handle 900), and a settings change that turns it off leaves no
listener thread and a null handle. -/
theorem listener_lifecycle_witness :
    (runModule Env.desktop [(Env.desktop, ModOp.afterInit)]).liveThreads = [900] ∧
    (Wh_ModSettingsChanged_reload { Env.desktop with Wh_GetIntSetting := fun _ => 0 }
      (runModule Env.desktop [(Env.desktop, ModOp.afterInit)])).liveThreads = [] ∧
    (Wh_ModSettingsChanged { Env.desktop with Wh_GetIntSetting := fun _ => 0 }
      (runModule Env.desktop [(Env.desktop, ModOp.afterInit)])).g_winEventHookThread = 0 :=
  ⟨by decide,
    ((listener_lifecycle Env.desktop [(Env.desktop, ModOp.afterInit)]).2.2
      { Env.desktop with Wh_GetIntSetting := fun _ => 0 } rfl).1,
    ((listener_lifecycle Env.desktop [(Env.desktop, ModOp.afterInit)]).2.2
      { Env.desktop with Wh_GetIntSetting := fun _ => 0 } rfl).2.2.2.2.2⟩

/-! ## Theorems: state left behind by a stop -/

theorem foldl_AdjustTaskbarStyle_pending (env : Env) (hs : List HWND) (w : World) :
    (hs.foldl (fun w h => (AdjustTaskbarStyle env w h).1) w).g_pendingMonitors =
        w.g_pendingMonitors ∧
      (hs.foldl (fun w h => (AdjustTaskbarStyle env w h).1) w).g_pendingMonitorsTimer =
        w.g_pendingMonitorsTimer ∧
      (hs.foldl (fun w h => (AdjustTaskbarStyle env w h).1) w).timers = w.timers := by
  induction hs generalizing w with
  | nil => exact ⟨rfl, rfl, rfl⟩
  | cons x rest ih =>
    rw [List.foldl_cons]
    obtain ⟨h1, h2, h3⟩ := ih (AdjustTaskbarStyle env w x).1
    rw [h1, h2, h3, AdjustTaskbarStyle_fst]
    exact ⟨rfl, rfl, rfl⟩

theorem AdjustAllTaskbarStyles_pending (env : Env) (w : World) :
    (AdjustAllTaskbarStyles env w).g_pendingMonitors = w.g_pendingMonitors ∧
      (AdjustAllTaskbarStyles env w).g_pendingMonitorsTimer = w.g_pendingMonitorsTimer ∧
      (AdjustAllTaskbarStyles env w).timers = w.timers := by
  unfold AdjustAllTaskbarStyles
  obtain ⟨h1, h2, h3⟩ := foldl_AdjustTaskbarStyle_pending env (FindTaskbarWindows env).2
    (if ((FindTaskbarWindows env).1 != 0) = true then
      (AdjustTaskbarStyle env w (FindTaskbarWindows env).1).1 else w)
  rw [h1, h2, h3]
  split
  · rw [AdjustTaskbarStyle_fst]
    exact ⟨rfl, rfl, rfl⟩
  · exact ⟨rfl, rfl, rfl⟩

/-- C11 (the code departs from it): `Wh_ModSettingsChanged` leaves `g_pendingMonitors`
and `g_pendingMonitorsTimer` exactly as they were, for every snapshot and world, and
while a timer id is recorded qualifying events set no timer. At the failing input
(the listener is debouncing with display 1 pending and timer 77 recorded, and the
settings change turns `onlyWhenMaximized` off) the listener is stopped and its timer
is gone, but display 1 is still pending and timer 77 is still recorded; after the
setting is turned on again and a new listener is started, a qualifying event sets
no timer. -/
theorem Wh_ModSettingsChanged_keeps_debouncer_state :
    (∀ (env : Env) (w : World),
      (Wh_ModSettingsChanged env w).g_pendingMonitors = w.g_pendingMonitors ∧
      (Wh_ModSettingsChanged env w).g_pendingMonitorsTimer = w.g_pendingMonitorsTimer) ∧
    (∀ (events : List (Env × WinEvent)) (w : World),
      (∀ e ∈ events, WinEventProc_qualifies e.1 e.2 = true) →
      w.g_pendingMonitorsTimer ≠ 0 →
      (deliverEvents events w).timers = w.timers ∧
      (deliverEvents events w).g_pendingMonitorsTimer = w.g_pendingMonitorsTimer) ∧
    (World.debouncing.g_pendingMonitors = [1] ∧
      World.debouncing.g_pendingMonitorsTimer = 77 ∧
      World.debouncing.timers = [77] ∧
      World.debouncing.liveThreads = [900]) ∧
    ((LoadSettings Env.desktopAlways World.debouncing).g_settings.onlyWhenMaximized = false ∧
      (Wh_ModSettingsChanged Env.desktopAlways World.debouncing).liveThreads = [] ∧
      (Wh_ModSettingsChanged Env.desktopAlways World.debouncing).timers = [] ∧
      (Wh_ModSettingsChanged Env.desktopAlways World.debouncing).g_pendingMonitors = [1] ∧
      (Wh_ModSettingsChanged Env.desktopAlways World.debouncing).g_pendingMonitorsTimer =
        77) ∧
    (WinEventProc_qualifies Env.desktop ⟨0x8002, 30, 0, 0⟩ = true ∧
      (Wh_ModSettingsChanged Env.desktop
        (Wh_ModSettingsChanged Env.desktopAlways World.debouncing)).liveThreads = [900] ∧
      (WinEventProc Env.desktop ⟨0x8002, 30, 0, 0⟩
        (Wh_ModSettingsChanged Env.desktop
          (Wh_ModSettingsChanged Env.desktopAlways World.debouncing))).timers = []) := by
  refine ⟨?_, ?_, by decide, by decide, by decide⟩
  · intro env w
    obtain ⟨h1, h2, _⟩ := AdjustAllTaskbarStyles_pending env (Wh_ModSettingsChanged_reload env w)
    unfold Wh_ModSettingsChanged
    rw [h1, h2, Wh_ModSettingsChanged_reload_eq]
    exact ⟨rfl, rfl⟩
  · intro events w hq ht
    rw [deliverEvents_armed events w hq ht]
    exact ⟨rfl, rfl⟩

/-! ## Theorems: unload -/

/-- Without a primary taskbar window no secondary one is reported. -/
theorem FindTaskbarWindows_none (env : Env) (h : (FindTaskbarWindows env).1 = 0) :
    (FindTaskbarWindows env).2 = [] := by
  unfold FindTaskbarWindows at h ⊢
  by_cases h1 : FindCurrentProcessTaskbarWnd env = 0
  · simp [h1]
  · by_cases h2 : env.windowThreadId (FindCurrentProcessTaskbarWnd env) = 0
    · simp [h1, h2]
    · simp [h1, h2] at h

/-- C12: `Wh_ModUninit`, for every world (so for every settings value), clears the
handle of the listener thread and then makes exactly these calls: the reset policy
for the primary taskbar surface when `FindTaskbarWindows` finds one, and the reset
policy for each secondary surface it finds; when there is no primary surface it
makes no call. No call carries the resolved style when that differs from the reset
policy. In every state the module can reach, whether the listener runs or not, no
listener thread is alive afterwards. -/
theorem Wh_ModUninit_spec (env : Env) :
    (∀ w : World,
      (Wh_ModUninit env w).g_winEventHookThread = 0 ∧
      (Wh_ModUninit env w).g_settings = w.g_settings ∧
      (Wh_ModUninit env w).calls =
        w.calls ++
          ((if (FindTaskbarWindows env).1 ≠ 0 then [(FindTaskbarWindows env).1] else []) ++
            (FindTaskbarWindows env).2).map
            (fun h => (h, (⟨WCA_ACCENT_POLICY,
              PvData.policy ⟨ACCENT_ENABLE_TRANSPARENTGRADIENT, 0x13, 0, 0⟩, 16⟩ :
                WINDOWCOMPOSITIONATTRIBDATA))) ∧
      ((FindTaskbarWindows env).1 = 0 → (Wh_ModUninit env w).calls = w.calls) ∧
      (styleData env w.g_settings ≠ resetData →
        ∀ c ∈ (Wh_ModUninit env w).calls.drop w.calls.length,
          c.2 ≠ styleData env w.g_settings)) ∧
    (∀ (envInit : Env) (ops : List (Env × ModOp)),
      (Wh_ModUninit env (runModule envInit ops)).liveThreads = []) := by
  constructor
  · intro w
    rw [Wh_ModUninit_eq]
    refine ⟨rfl, rfl, rfl, ?_, ?_⟩
    · intro h0
      simp [h0, FindTaskbarWindows_none env h0]
    · intro hne c hc
      simp only [List.drop_left] at hc
      obtain ⟨x, _, hx⟩ := List.mem_map.1 hc
      rw [← hx]
      exact fun h => hne h.symm
  · intro envInit ops
    have hinv := listenerOk_Wh_ModUninit env _ (listenerOk_runModule envInit ops)
    unfold listenerOk at hinv
    apply hinv.1
    rw [Wh_ModUninit_eq]

/-- C12, at concrete inputs: on the desktop, unloading the debouncing module stops
the listener and sends the reset policy to the taskbar (window 10); in a snapshot
without a taskbar nothing is sent. -/
theorem Wh_ModUninit_spec_witness :
    (Wh_ModUninit Env.sample World.debouncing).calls = World.debouncing.calls ∧
    (Wh_ModUninit Env.desktop World.debouncing).liveThreads = [] ∧
    (Wh_ModUninit Env.desktop World.debouncing).calls.drop World.debouncing.calls.length =
      [(10, ⟨WCA_ACCENT_POLICY,
        PvData.policy ⟨ACCENT_ENABLE_TRANSPARENTGRADIENT, 0x13, 0, 0⟩, 16⟩)] :=
  ⟨((Wh_ModUninit_spec Env.sample).1 World.debouncing).2.2.2.1 (by decide),
    (Wh_ModUninit_spec Env.desktop).2 Env.desktop
      [(Env.desktop, ModOp.afterInit), (Env.desktop, ModOp.winEvent ⟨0x8002, 20, 0, 0⟩)],
    by decide⟩

/-! ## Theorems: accent color -/

/-- Masking with `0xFF000000` keeps the fourth byte in place. -/
theorem and_FF000000 (color : Nat) :
    color &&& 0xFF000000 = (color / 2 ^ 24 % 256) <<< 24 := by
  apply Nat.eq_of_testBit_eq
  intro j
  have hmask : (0xFF000000 : Nat) = (2 ^ 8 - 1) <<< 24 := by decide
  have h256 : (256 : Nat) = 2 ^ 8 := by norm_num
  rw [hmask, h256, ← Nat.shiftRight_eq_div_pow]
  simp only [Nat.testBit_and, Nat.testBit_shiftLeft, Nat.testBit_two_pow_sub_one,
    Nat.testBit_mod_two_pow, Nat.testBit_shiftRight]
  by_cases hj : 24 ≤ j
  · have e : 24 + (j - 24) = j := by omega
    simp [hj, e, Bool.and_comm]
  · simp [hj]

/-- The color `SetTaskbarStyle` builds from an accent color, as a sum. -/
theorem accent_or_eq_add (R G B color : Nat) (hR : R < 256) (hG : G < 256) (hB : B < 256) :
    (R % 256) ||| ((G % 256) <<< 8) ||| ((B % 256) <<< 16) ||| (color &&& 0xFF000000) =
      R + 256 * G + 65536 * B + 16777216 * (color / 2 ^ 24 % 256) := by
  rw [Nat.mod_eq_of_lt hR, Nat.mod_eq_of_lt hG, Nat.mod_eq_of_lt hB, and_FF000000]
  exact or_bytes_eq_add R G B _ hR hG hB

/-- C13: when the picked style asks for the accent color and the lookup succeeds with
the bytes (R, G, B), the color `SetTaskbarStyle` sends is
`R + G * 2^8 + B * 2^16 + (color &&& 0xFF000000)` for the configured color of the
picked style. Its low 24 bits are `R + G * 2^8 + B * 2^16`, whatever the configured
red, green and blue are, and its top byte is the fourth byte of the configured
color, which for a color packed by `LoadSettings` is the configured transparency
byte; `LoadSettings` sets the flag of the default style from `color.accentColor`. -/
theorem SetTaskbarStyle_accent_color (env : Env) (w : World) (hWnd : HWND) (c : Color)
    (hacc : (SetTaskbarStyle_style env w.g_settings).accentColor = true)
    (hok : env.GetColorValue_Accent = Except.ok c)
    (hR : c.R < 256) (hG : c.G < 256) (hB : c.B < 256) :
    ∃ accentState accentFlags sent,
      SetTaskbarStyle env w hWnd =
        SetWindowCompositionAttribute_Original env w hWnd
          ⟨WCA_ACCENT_POLICY, PvData.policy ⟨accentState, accentFlags, sent, 0⟩, 16⟩ ∧
      sent = c.R + c.G * 2 ^ 8 + c.B * 2 ^ 16 +
        ((SetTaskbarStyle_style env w.g_settings).color &&& 0xFF000000) ∧
      sent % 2 ^ 24 = c.R + c.G * 2 ^ 8 + c.B * 2 ^ 16 ∧
      sent / 2 ^ 24 = (SetTaskbarStyle_style env w.g_settings).color / 2 ^ 24 % 256 ∧
      (∀ red green blue transparency : Int,
        (SetTaskbarStyle_style env w.g_settings).color =
            packColor red green blue transparency →
          sent / 2 ^ 24 = BYTE transparency) ∧
      (∀ (envS : Env) (w0 : World),
        (LoadSettings envS w0).g_settings.style.color =
            packColor (envS.Wh_GetIntSetting "color.red")
              (envS.Wh_GetIntSetting "color.green") (envS.Wh_GetIntSetting "color.blue")
              (envS.Wh_GetIntSetting "color.transparency") ∧
          (LoadSettings envS w0).g_settings.style.accentColor =
            (envS.Wh_GetIntSetting "color.accentColor" != 0)) := by
  have hsum := accent_or_eq_add c.R c.G c.B (SetTaskbarStyle_style env w.g_settings).color
    hR hG hB
  have hc : (SetTaskbarStyle_policy env w.g_settings).gradientColor =
      c.R + 256 * c.G + 65536 * c.B +
        16777216 * ((SetTaskbarStyle_style env w.g_settings).color / 2 ^ 24 % 256) := by
    rw [← hsum]
    simp only [SetTaskbarStyle_policy, hacc, hok]
    rfl
  have hhi : (SetTaskbarStyle_style env w.g_settings).color / 2 ^ 24 % 256 < 256 :=
    Nat.mod_lt _ (by norm_num)
  have p24 : (2 : Nat) ^ 24 = 16777216 := by norm_num
  have p16 : (2 : Nat) ^ 16 = 65536 := by norm_num
  have p8 : (2 : Nat) ^ 8 = 256 := by norm_num
  have hlow : (c.R + 256 * c.G + 65536 * c.B +
      16777216 * ((SetTaskbarStyle_style env w.g_settings).color / 2 ^ 24 % 256)) % 2 ^ 24 =
      c.R + c.G * 2 ^ 8 + c.B * 2 ^ 16 := by
    rw [p24, p16, p8, Nat.add_mul_mod_self_left, Nat.mod_eq_of_lt (by omega)]
    ring
  have hhigh : (c.R + 256 * c.G + 65536 * c.B +
      16777216 * ((SetTaskbarStyle_style env w.g_settings).color / 2 ^ 24 % 256)) / 2 ^ 24 =
      (SetTaskbarStyle_style env w.g_settings).color / 2 ^ 24 % 256 := by
    rw [p24, Nat.add_mul_div_left _ _ (by norm_num), Nat.div_eq_of_lt (by omega)]
    omega
  refine ⟨(SetTaskbarStyle_policy env w.g_settings).accentState,
    (SetTaskbarStyle_policy env w.g_settings).accentFlags,
    (SetTaskbarStyle_policy env w.g_settings).gradientColor, ?_, ?_, ?_, ?_, ?_, ?_⟩
  · rfl
  · rw [hc, and_FF000000, Nat.shiftLeft_eq, p8, p16, p24]
    ring
  · rw [hc]
    exact hlow
  · rw [hc]
    exact hhigh
  · intro red green blue transparency hpack
    rw [hc, hhigh, hpack, packColor_high]
    exact Nat.mod_eq_of_lt (BYTE_lt transparency)
  · intro envS w0
    exact ⟨rfl, rfl⟩

/-- C13, at a concrete input: the default style asks for the accent color with the
configured color 0x80277FFF, the accent color is (0, 120, 215), and the color sent
is 0x80D77800. -/
theorem SetTaskbarStyle_accent_color_witness :
    (SetTaskbarStyle Env.sample
        { World.initial with g_settings :=
            ⟨⟨BackgroundStyle.color, 0x80277FFF, true⟩, true, none⟩ } 10).1.calls =
      [(10, ⟨WCA_ACCENT_POLICY,
        PvData.policy ⟨ACCENT_ENABLE_TRANSPARENTGRADIENT, 0x13, 0x80D77800, 0⟩, 16⟩)] ∧
    ∃ accentState accentFlags sent,
      SetTaskbarStyle Env.sample
          { World.initial with g_settings :=
              ⟨⟨BackgroundStyle.color, 0x80277FFF, true⟩, true, none⟩ } 10 =
        SetWindowCompositionAttribute_Original Env.sample
          { World.initial with g_settings :=
              ⟨⟨BackgroundStyle.color, 0x80277FFF, true⟩, true, none⟩ } 10
          ⟨WCA_ACCENT_POLICY, PvData.policy ⟨accentState, accentFlags, sent, 0⟩, 16⟩ ∧
      sent % 2 ^ 24 = 0 + 120 * 2 ^ 8 + 215 * 2 ^ 16 :=
  ⟨by decide,
    match SetTaskbarStyle_accent_color Env.sample
      { World.initial with g_settings :=
          ⟨⟨BackgroundStyle.color, 0x80277FFF, true⟩, true, none⟩ } 10
      ⟨255, 0, 120, 215⟩ rfl rfl (by decide) (by decide) (by decide) with
    | ⟨a, f, sent, h1, _, h3, _⟩ => ⟨a, f, sent, h1, h3⟩⟩

end TaskbarBackgroundHelper
